import Mathlib

/-!
Verification development for the Nagar citizen-report aggregation backend.

The Python services under `app/services/` are shallowly embedded as
executable Lean definitions:

* machine floats become exact numbers: coordinates are exact fractions
  (`QV`), confidence scores are integer twentieths, durations are integer
  seconds; the `math.isnan` guards of the source have no counterpart in
  exact arithmetic and are noted where they occur;
* timestamps become integer seconds (`ℤ`), UTC throughout, mirroring the
  source's normalisation of every datetime to aware-UTC before comparison;
* Firestore documents become records; a missing / `None` string field is
  the empty string (matching Python truthiness tests on those fields),
  while numeric and timestamp fields use `Option` because the source
  distinguishes `is None` checks from truthiness checks on them;
* the haversine great-circle distance is abstracted as a parameter
  `d : QV → QV → QV → QV → ℚ` (lat1 lon1 lat2 lon2 ↦ metres).  Every
  clustering definition takes `d` as an argument; the source always
  instantiates it with `_haversine_meters`, which satisfies
  `d lat lon lat lon = 0`.  Concrete instances below only ever place
  reports at identical coordinates, where the zero function agrees with
  the source's haversine exactly;
* Firestore reads/writes become explicit state passing on `AggState`;
  a fallible store is `Except Unit (List PReport)` where the ingestion
  gate's exception propagation matters.
-/

/-- An exact rational value used for coordinates: numerator over positive
denominator, compared by cross-multiplication.  Machine floats are
canonically represented, so float equality in the source is value equality
here; this representation needs no gcd normalisation, keeping every
definition evaluable by the kernel.  All constructors below produce a
positive denominator. -/
structure QV where
  num : ℤ
  den : ℤ
  deriving Repr, DecidableEq

/-- Embed an integer coordinate. -/
def QV.ofInt (n : ℤ) : QV := ⟨n, 1⟩

/-- Exact addition. -/
def QV.add (a b : QV) : QV := ⟨a.num * b.den + b.num * a.den, a.den * b.den⟩

/-- Exact division by a (positive) count. -/
def QV.divNat (a : QV) (n : ℕ) : QV := ⟨a.num, a.den * n⟩

/-- Comparison with 0.0 (Python float truthiness / the `== 0.0` guard). -/
def QV.isZero (a : QV) : Bool := a.num = 0

/-- Value equality of two coordinates (float `==` of the source). -/
def QV.valEq (a b : QV) : Bool := a.num * b.den = b.num * a.den

/-- A citizen report document (collection `reports`). String fields use `""`
for a missing value, matching Python truthiness checks in the source. -/
structure PReport where
  id : String
  description : String
  issue_type : String
  city : String
  locality : String
  status : String
  latitude : Option QV
  longitude : Option QV
  created_at : Option ℤ
  issue_id : String
  ip_address_hash : String
  ip_address : String
  media_urls : List String
  confidence : String
  confidence_reason : String
  ai_category : String
  deriving Repr, DecidableEq

/-- One entry of an issue's `confidence_timeline`.  Confidence scores are
kept in integer twentieths throughout (4 = 0.2, 3 = 0.15, 2 = 0.10,
8 = 0.4, 14 = 0.7, 20 = 1.0): every score the source can produce is a
multiple of 0.05, so this scaling is exact, and it keeps the arithmetic
kernel-evaluable. -/
structure TEntry where
  timestamp : ℤ
  previous_confidence : Option String
  previous_confidence_score : Option ℤ
  new_confidence : String
  confidence_score : ℤ
  reason : String
  deriving Repr, DecidableEq

/-- An issue document (collection `issues`). -/
structure Issue where
  id : String
  issue_type : String
  city : String
  locality : String
  latitude : Option QV
  longitude : Option QV
  status : String
  report_count : ℕ
  report_ids : List String
  confidence : String
  confidence_score : ℤ
  confidence_reason : String
  confidence_timeline : List TEntry
  created_at : Option ℤ
  updated_at : ℤ
  deriving Repr, DecidableEq

/-- The two Firestore collections the aggregation engines read and write. -/
structure AggState where
  reports : List PReport
  issues : List Issue
  nextIssueNum : ℕ
  deriving Repr, DecidableEq

/-- ASCII lower-casing of one character, as `str.lower` acts on the ASCII
city strings of this code base. -/
def asciiLowerChar (c : Char) : Char :=
  if 65 ≤ c.toNat ∧ c.toNat ≤ 90 then Char.ofNat (c.toNat + 32) else c

/-- ASCII upper-casing of one character (`str.upper`). -/
def asciiUpperChar (c : Char) : Char :=
  if 97 ≤ c.toNat ∧ c.toNat ≤ 122 then Char.ofNat (c.toNat - 32) else c

/-- `str.lower` restricted to ASCII. -/
def strLower (s : String) : String := ⟨s.data.map asciiLowerChar⟩

/-- `str.upper` restricted to ASCII. -/
def strUpper (s : String) : String := ⟨s.data.map asciiUpperChar⟩

/-- Whitespace as stripped by `str.strip`. -/
def isSpaceChar (c : Char) : Bool :=
  decide (c = ' ') || decide (c.toNat = 9) || decide (c.toNat = 10) || decide (c.toNat = 13)

/-- `str.strip`: drop leading and trailing whitespace. -/
def strStrip (s : String) : String :=
  ⟨((s.data.dropWhile isSpaceChar).reverse.dropWhile isSpaceChar).reverse⟩

/-- Embeds `normalize_city_name` (`app/utils/geocoding.py`): strip, reject
empty / UNKNOWN / a small blacklist, return the lowercased name. -/
def normalizeCityName (city : String) : String :=
  if city = "" then "UNKNOWN"
  else
    let normalized := strStrip city
    if normalized = "" ∨ strUpper normalized = "UNKNOWN" then "UNKNOWN"
    else
      let normalizedLower := strLower normalized
      if normalizedLower = "india" ∨ normalizedLower = "test city" ∨ normalizedLower = "" then
        "UNKNOWN"
      else normalizedLower


namespace StatusWorkflow

/-- Embeds the `ReportStatus` enum of `app/services/status_workflow.py`. -/
inductive ReportStatus where
  | UNDER_REVIEW
  | VERIFIED
  | ACTION_TAKEN
  | CLOSED
  deriving Repr, DecidableEq

open ReportStatus

/-- String value of a status, as stored in Firestore. -/
def ReportStatus.value : ReportStatus → String
  | UNDER_REVIEW => "UNDER_REVIEW"
  | VERIFIED => "VERIFIED"
  | ACTION_TAKEN => "ACTION_TAKEN"
  | CLOSED => "CLOSED"

/-- Embeds the `ReportStatus(str)` constructor: parse a raw string,
`ValueError` becomes `none`. -/
def parseStatus (s : String) : Option ReportStatus :=
  if s = "UNDER_REVIEW" then some UNDER_REVIEW
  else if s = "VERIFIED" then some VERIFIED
  else if s = "ACTION_TAKEN" then some ACTION_TAKEN
  else if s = "CLOSED" then some CLOSED
  else none

/-- Embeds `ALLOWED_TRANSITIONS`: the list of allowed next states. -/
def ALLOWED_TRANSITIONS : ReportStatus → List ReportStatus
  | UNDER_REVIEW => [VERIFIED]
  | VERIFIED => [ACTION_TAKEN]
  | ACTION_TAKEN => [CLOSED]
  | CLOSED => []

/-- Embeds `StatusWorkflowEngine.is_valid_transition`. -/
def isValidTransition (fromStatus toStatus : String) : Bool :=
  match parseStatus fromStatus, parseStatus toStatus with
  | some fromEnum, some toEnum =>
    if fromEnum = toEnum then true
    else decide (toEnum ∈ ALLOWED_TRANSITIONS fromEnum)
  | _, _ => false

/-- Embeds `StatusWorkflowEngine.get_allowed_transitions`. -/
def getAllowedTransitions (currentStatus : String) : List String :=
  match parseStatus currentStatus with
  | some currentEnum => (ALLOWED_TRANSITIONS currentEnum).map ReportStatus.value
  | none => []

/-- A status-history entry as built by `create_status_history_entry`
(the server timestamp placeholder is abstracted to the actor and note). -/
structure HistoryEntry where
  fromStatus : String
  toStatus : String
  changed_by : String
  note : String
  deriving Repr, DecidableEq

/-- Rejection carried by the `ValueError` of `validate_and_transition`:
the message embeds the attempted pair and the enumerated allowed
next states from the current status. -/
structure TransitionRejection where
  fromStatus : String
  toStatus : String
  allowed : List String
  deriving Repr, DecidableEq

/-- Embeds `StatusWorkflowEngine.validate_and_transition`: `Except.error`
models the raised `ValueError`. -/
def validateAndTransition (currentStatus newStatus changedBy note : String) :
    Except TransitionRejection HistoryEntry :=
  if isValidTransition currentStatus newStatus then
    Except.ok ⟨currentStatus, newStatus, changedBy, note⟩
  else
    Except.error ⟨currentStatus, newStatus, getAllowedTransitions currentStatus⟩

/-- The claim-side successor relation: the strict linear chain
UNDER_REVIEW → VERIFIED → ACTION_TAKEN → CLOSED. -/
def nextInChain : ReportStatus → Option ReportStatus
  | UNDER_REVIEW => some VERIFIED
  | VERIFIED => some ACTION_TAKEN
  | ACTION_TAKEN => some CLOSED
  | CLOSED => none

end StatusWorkflow

namespace ConfidenceEngine

/-- Firestore query predicate `created_at >= threshold`: a document whose
`created_at` field is missing does not match. -/
def tsAtLeast (p : PReport) (threshold : ℤ) : Bool :=
  match p.created_at with
  | some t => threshold ≤ t
  | none => false

/-- Embeds `ConfidenceEngine._find_similar_reports_by_locality`
(`app/services/confidence_engine.py`): the Firestore query filters on
locality and `created_at >= created_at - 30 min` (no upper bound), the
loop then drops the report itself and non-matching AI categories. -/
def findSimilarReportsByLocality (store : List PReport) (aiCategory locality : String)
    (createdAt : ℤ) (excludeId : String) : List PReport :=
  (store.filter (fun p => p.locality = locality ∧ tsAtLeast p (createdAt - 30 * 60))).filter
    (fun p => p.id ≠ excludeId ∧ p.ai_category = aiCategory)

/-- One Firestore write performed through `_update_confidence`. -/
structure ConfUpdate where
  rid : String
  conf : String
  reason : String
  deriving Repr, DecidableEq

/-- Reason string of the media branch. -/
def mediaReason (n : ℕ) : String :=
  "Report includes media evidence (" ++ toString n ++ " file(s))"

/-- Reason string of the 4+ branch. -/
def corroboratingReason (total : ℕ) (locality : String) : String :=
  "Multiple corroborating reports detected (" ++ toString total ++ " reports in " ++
    locality ++ " within 30 minutes)"

/-- Reason string of the 2-3 branch. -/
def similarReason (total : ℕ) (locality : String) : String :=
  "Multiple similar reports detected (" ++ toString total ++ " reports in " ++
    locality ++ " within 30 minutes)"

/-- Reason string of the single-report branches. -/
def singleReason : String := "Single report, awaiting corroboration"

/-- Embeds `ConfidenceEngine.recalculate_confidence` as the ordered list of
Firestore confidence writes it performs: the target report's write first,
then one write per upgraded similar report. The Python early-return on
missing id / locality / created_at produces no writes. -/
def recalcConfidenceUpdates (store : List PReport) (r : PReport) : List ConfUpdate :=
  match r.created_at with
  | none => []
  | some t =>
    if r.id = "" ∨ r.locality = "" then []
    else if r.media_urls ≠ [] then [⟨r.id, "HIGH", mediaReason r.media_urls.length⟩]
    else if r.ai_category = "Unclassified" ∨ r.ai_category = "General" ∨ r.ai_category = "" then
      [⟨r.id, "LOW", singleReason⟩]
    else
      let similar := findSimilarReportsByLocality store r.ai_category r.locality t r.id
      let total := similar.length + 1
      if 4 ≤ total then
        ⟨r.id, "HIGH", corroboratingReason total r.locality⟩ ::
          (similar.filter (fun p => p.confidence ≠ "HIGH")).map
            (fun p => ⟨p.id, "HIGH", corroboratingReason total r.locality⟩)
      else if 2 ≤ total then
        ⟨r.id, "MEDIUM", similarReason total r.locality⟩ ::
          (similar.filter (fun p => p.confidence = "LOW")).map
            (fun p => ⟨p.id, "MEDIUM", similarReason total r.locality⟩)
      else [⟨r.id, "LOW", singleReason⟩]

/-- The value a stored report ends up with after the engine's writes (the
engine writes at most once per document id, so applying the first matching
write is the document's final value). -/
def updatedReport (store : List PReport) (r : PReport) (p : PReport) : PReport :=
  match (recalcConfidenceUpdates store r).find? (fun u => u.rid = p.id) with
  | some u => {p with confidence := u.conf, confidence_reason := u.reason}
  | none => p

/-- The report store after one engine run (each document receives its
matching write, others are untouched). -/
def applyRecalc (store : List PReport) (r : PReport) : List PReport :=
  store.map (updatedReport store r)

/-- The confidence label the engine writes for the target report itself
(the first write is always the target's). -/
def engineTargetLabel (store : List PReport) (r : PReport) : Option String :=
  (recalcConfidenceUpdates store r).head?.map ConfUpdate.conf

/-- Numeric rank of a confidence label, LOW < MEDIUM < HIGH. -/
def confidenceRank (s : String) : ℕ :=
  if s = "LOW" then 0 else if s = "MEDIUM" then 1 else if s = "HIGH" then 2 else 0

/-- The three genuine confidence labels. -/
def wellFormedLabel (s : String) : Bool :=
  s = "LOW" ∨ s = "MEDIUM" ∨ s = "HIGH"

/-- Modelled from the claim's wording (C5 as stated): classification
category is the AI category if present else the user-selected issue type;
empty category gives LOW; peers match on that category, exact locality and
the trailing 30-minute window. Used only to compare the claim against the
source. -/
def claimCategory (p : PReport) : String :=
  if p.ai_category ≠ "" then p.ai_category else p.issue_type

/-- Modelled from the claim's wording (C5 as stated): the label the claim
says the engine assigns. -/
def claimReportLabel (store : List PReport) (r : PReport) (t : ℤ) : String :=
  if r.media_urls ≠ [] then "HIGH"
  else if claimCategory r = "" then "LOW"
  else
    let peers := store.filter (fun p =>
      decide (p.id ≠ r.id) && decide (claimCategory p = claimCategory r) &&
        decide (p.locality = r.locality) &&
        (match p.created_at with
          | some u => decide (t - 30 * 60 ≤ u) && decide (u ≤ t)
          | none => false))
    let total := peers.length + 1
    if 4 ≤ total then "HIGH" else if 2 ≤ total then "MEDIUM" else "LOW"

/-- Amended description of the engine (C5 amended): the category is
exclusively the AI-classified one — no fall-back to the user-selected
issue type — and a category of "", "Unclassified" or "General" yields LOW;
peers match on AI category, exact locality and a lower-bounded-only window
`created_at ≥ t − 30 min`; media still yields HIGH immediately. -/
def amendedReportLabel (store : List PReport) (r : PReport) (t : ℤ) : String :=
  if r.media_urls ≠ [] then "HIGH"
  else if r.ai_category = "Unclassified" ∨ r.ai_category = "General" ∨ r.ai_category = "" then
    "LOW"
  else
    let total := (store.filter (fun p =>
      p.id ≠ r.id ∧ p.ai_category = r.ai_category ∧ p.locality = r.locality ∧
        tsAtLeast p (t - 30 * 60))).length + 1
    if 4 ≤ total then "HIGH" else if 2 ≤ total then "MEDIUM" else "LOW"

end ConfidenceEngine

/-- A report with every optional field empty; concrete instances below
override the fields they need. -/
def baseReport : PReport :=
  { id := "", description := "", issue_type := "", city := "", locality := "",
    status := "UNDER_REVIEW", latitude := none, longitude := none,
    created_at := none, issue_id := "", ip_address_hash := "", ip_address := "",
    media_urls := [], confidence := "LOW", confidence_reason := "", ai_category := "" }

namespace ConfidenceEngine

/-- C5 instance, target report: the AI classification is absent while the
user selected issue type Traffic. -/
def c5Target : PReport :=
  { baseReport with
      id := "r1", issue_type := "Traffic", locality := "mg road",
      created_at := some 1000 }

/-- C5 instance, corroborating peer: AI category Traffic, same locality,
created at the same instant. -/
def c5Peer (n : String) : PReport :=
  { baseReport with
      id := n, issue_type := "Traffic", ai_category := "Traffic",
      locality := "mg road", created_at := some 1000 }

/-- C5 instance, the stored reports. -/
def c5Store : List PReport := [c5Target, c5Peer "r2", c5Peer "r3", c5Peer "r4"]

/-- C6 instance, target report: stored confidence MEDIUM, classifiable, no
media, and no peer left in the store. -/
def c6Target : PReport :=
  { baseReport with
      id := "r1", ai_category := "Traffic", locality := "mg road",
      created_at := some 1000, confidence := "MEDIUM" }

/-- C6 instance, the stored reports. -/
def c6Store : List PReport := [c6Target]

/-- C6 witness instance, target report. -/
def c6wTarget : PReport :=
  { baseReport with
      id := "w1", ai_category := "Traffic", locality := "mg road",
      created_at := some 1000 }

/-- C6 witness instance, a LOW peer the engine upgrades to MEDIUM. -/
def c6wPeer : PReport :=
  { baseReport with
      id := "w2", ai_category := "Traffic", locality := "mg road",
      created_at := some 1000, confidence := "LOW" }

/-- C6 witness instance, the stored reports. -/
def c6wStore : List PReport := [c6wTarget, c6wPeer]

end ConfidenceEngine

namespace PriorityScoring

/-- Embeds `ISSUE_TYPE_WEIGHTS` with the `.get(issue_type, 5)` default of
`calculate_priority` (`app/services/priority_scoring.py`). -/
def issueTypeWeight (t : String) : ℤ :=
  if t = "Safety" then 30 else if t = "Safety Concern" then 30
  else if t = "Public Safety" then 30 else if t = "Traffic" then 20
  else if t = "Roadblock" then 20 else if t = "Power" then 15
  else if t = "Water" then 15 else if t = "Infrastructure" then 10
  else if t = "Other" then 5 else 5

/-- Embeds `CONFIDENCE_WEIGHTS` with the `.get(confidence, 5)` default. -/
def confidenceWeight (c : String) : ℤ :=
  if c = "HIGH" then 30 else if c = "MEDIUM" then 15 else if c = "LOW" then 5 else 5

/-- Embeds `STATUS_WEIGHTS` with the `.get(status, 10)` default. -/
def statusWeight (s : String) : ℤ :=
  if s = "VERIFIED" then 20 else if s = "ACTION_TAKEN" then 10
  else if s = "UNDER_REVIEW" then 15 else if s = "CLOSED" then 0 else 10

/-- Embeds `_calculate_persistence_score`: with `age_hours` the age in
hours, the source computes `int((age_hours - 24) / 24 * 5)` capped at 20
once `age_hours > 24`.  Written over integer seconds with exact arithmetic:
`age_hours > 24` is `ageSeconds > 86400`, and the truncation of the
positive quantity `(age_hours - 24) / 24 * 5` is the integer division
`5 * (ageSeconds - 86400) / 86400`. -/
def persistenceScore (now createdAt : ℤ) : ℤ :=
  let ageSeconds := now - createdAt
  if 86400 < ageSeconds then min (5 * (ageSeconds - 86400) / 86400) 20 else 0

/-- Embeds `_calculate_locality_repetition_score`: count other non-closed
reports of the same locality and city, `min(count * 5, 15)` when positive. -/
def localityRepetitionScore (store : List PReport) (locality city excludeId : String) : ℤ :=
  let count := (store.filter (fun p =>
    p.locality = locality ∧ p.city = city ∧ p.id ≠ excludeId ∧ p.status ≠ "CLOSED")).length
  if 0 < count then min ((count : ℤ) * 5) 15 else 0

/-- Embeds `PriorityScoringService.calculate_priority`: the weighted factor
sum clamped to [0, 100]. -/
def calculatePriority (store : List PReport) (now : ℤ) (report : PReport) : ℤ :=
  let confScore := confidenceWeight report.confidence
  let issueScore := issueTypeWeight report.issue_type
  let statusScore := statusWeight report.status
  let mediaScore : ℤ := if report.media_urls ≠ [] then 10 else 0
  let persistScore : ℤ :=
    match report.created_at with
    | some c => persistenceScore now c
    | none => 0
  let repetitionScore : ℤ :=
    if report.locality ≠ "" ∧ report.city ≠ "" then
      localityRepetitionScore store report.locality report.city report.id
    else 0
  max 0 (min 100 (confScore + issueScore + statusScore + mediaScore +
    persistScore + repetitionScore))

/-- Modelled from the claim's wording (C8 as stated): "+5 per full day
beyond a 24-hour age threshold, capped at +20" — 5 points per completed
86400-second day beyond the first 86400 seconds of age. -/
def claimPersistenceScore (now createdAt : ℤ) : ℤ :=
  let ageSeconds := now - createdAt
  if 86400 < ageSeconds then min (5 * ((ageSeconds - 86400) / 86400)) 20 else 0

/-- Modelled from the claim's wording (C8 as stated): confidence weight for
the three labels the claim lists. -/
def claimConfidenceWeight (c : String) : ℤ :=
  if c = "HIGH" then 30 else if c = "MEDIUM" then 15 else if c = "LOW" then 5 else 0

/-- Modelled from the claim's wording (C8 as stated): status weight for the
four workflow states the claim lists. -/
def claimStatusWeight (s : String) : ℤ :=
  if s = "VERIFIED" then 20 else if s = "UNDER_REVIEW" then 15
  else if s = "ACTION_TAKEN" then 10 else if s = "CLOSED" then 0 else 0

/-- Modelled from the claim's wording (C8 as stated): the full priority
formula with the per-full-day persistence bonus. -/
def claimPriorityScore (store : List PReport) (now : ℤ) (report : PReport) : ℤ :=
  let persist : ℤ :=
    match report.created_at with
    | some c => claimPersistenceScore now c
    | none => 0
  let count := (store.filter (fun p =>
    p.locality = report.locality ∧ p.city = report.city ∧ p.id ≠ report.id ∧
      p.status ≠ "CLOSED")).length
  max 0 (min 100 (claimConfidenceWeight report.confidence +
    issueTypeWeight report.issue_type + claimStatusWeight report.status +
    (if report.media_urls ≠ [] then 10 else 0) + persist +
    min ((5 : ℤ) * count) 15))

/-- Amended persistence bonus (C8 amended): the bonus is pro-rated
continuously — the integer part of `5 × (age − 24 h) / 24 h` capped at 20,
not a multiple of completed days. -/
def amendedPersistenceScore (now createdAt : ℤ) : ℤ :=
  let ageSeconds := now - createdAt
  if 86400 < ageSeconds then min (5 * (ageSeconds - 86400) / 86400) 20 else 0

/-- Amended priority formula (C8 amended): as the claim states it, with the
pro-rated persistence bonus, and a locality bonus that is only awarded when
both locality and city are non-empty. -/
def amendedPriorityScore (store : List PReport) (now : ℤ) (report : PReport) : ℤ :=
  let persist : ℤ :=
    match report.created_at with
    | some c => amendedPersistenceScore now c
    | none => 0
  let count := (store.filter (fun p =>
    p.locality = report.locality ∧ p.city = report.city ∧ p.id ≠ report.id ∧
      p.status ≠ "CLOSED")).length
  max 0 (min 100 (claimConfidenceWeight report.confidence +
    issueTypeWeight report.issue_type + claimStatusWeight report.status +
    (if report.media_urls ≠ [] then 10 else 0) + persist +
    (if 0 < count then min ((5 : ℤ) * count) 15 else 0)))

/-- C8 instance: a 36-hour-old report with otherwise minimal factors. -/
def c8Report : PReport :=
  { baseReport with
      id := "p1", issue_type := "Other", city := "pune", locality := "mg road",
      created_at := some 0 }

end PriorityScoring

/-- First-occurrence dedup relative to a set of already-seen elements. -/
def dedupFrom (seen : List String) : List String → List String
  | [] => []
  | x :: xs => if x ∈ seen then dedupFrom seen xs else x :: dedupFrom (x :: seen) xs

/-- Keep the first occurrence of every element (deterministic stand-in for
the source's Python `set` collections: same membership and cardinality,
fixed order). -/
def dedupKeepFirst (l : List String) : List String := dedupFrom [] l


namespace IssueAggregation

/-- `MIN_REPORTS_FOR_ISSUE` of `app/services/issue_aggregation_service.py`. -/
def MIN_REPORTS_FOR_ISSUE : ℕ := 5

/-- `PROXIMITY_METERS`. -/
def PROXIMITY_METERS : ℚ := 500

/-- The aggregation engine only clusters UNDER_REVIEW / VERIFIED reports. -/
def VALID_STATUSES : List String := ["UNDER_REVIEW", "VERIFIED"]

/-- The abstract great-circle distance (lat1 lon1 lat2 lon2 ↦ metres),
instantiated with `_haversine_meters` in the source. -/
abbrev Dist := QV → QV → QV → QV → ℚ

/-- Embeds `report.get("latitude") or 0.0` of `_calculate_centroid`:
missing coordinates enter the sums as zero. -/
def latOrZero (r : PReport) : QV :=
  match r.latitude with
  | some q => q
  | none => QV.ofInt 0

/-- Embeds `report.get("longitude") or 0.0`. -/
def lonOrZero (r : PReport) : QV :=
  match r.longitude with
  | some q => q
  | none => QV.ofInt 0

/-- Embeds `_calculate_centroid`: the coordinate sums (missing values as
zero) divided by the total member count; `(0, 0)` on an empty list. -/
def calcCentroid (reports : List PReport) : QV × QV :=
  if reports.length = 0 then (QV.ofInt 0, QV.ofInt 0)
  else
    ((reports.foldl (fun acc r => acc.add (latOrZero r)) (QV.ofInt 0)).divNat reports.length,
     (reports.foldl (fun acc r => acc.add (lonOrZero r)) (QV.ofInt 0)).divNat reports.length)

/-- Number of member reports with the given stripped locality. -/
def localityCount (reports : List PReport) (loc : String) : ℕ :=
  (reports.filter (fun r => strStrip r.locality = loc)).length

/-- Embeds `_get_dominant_locality`: the most frequent non-empty stripped
locality; Python's `max` over the insertion-ordered counter keeps the first
maximum, mirrored here by replacing only on a strictly larger count. -/
def dominantLocality (reports : List PReport) : String :=
  let keys := dedupKeepFirst ((reports.map (fun r => strStrip r.locality)).filter (fun l => l ≠ ""))
  match keys with
  | [] => ""
  | k :: ks =>
    ks.foldl (fun best cand =>
      if localityCount reports best < localityCount reports cand then cand else best) k

/-- Embeds `_cluster_reports`: reports with coordinates and timestamp,
within `PROXIMITY_METERS` of the reference point and two hours of the
reference time. -/
def clusterReports (d : Dist) (reports : List PReport) (refLat refLon : QV)
    (refTime : ℤ) : List PReport :=
  reports.filter (fun r =>
    match r.latitude, r.longitude, r.created_at with
    | some lat, some lon, some t =>
      decide (d refLat refLon lat lon ≤ PROXIMITY_METERS) &&
        decide ((t - refTime).natAbs ≤ 7200)
    | _, _, _ => false)

/-- Sort key of `_find_eligible_clusters`: parsed `created_at`, with
`datetime.min` (before everything) for a missing value. -/
def timeKeyLE (a b : PReport) : Bool :=
  match a.created_at, b.created_at with
  | none, _ => true
  | some _, none => false
  | some x, some y => x ≤ y

/-- Stable insertion into a time-sorted list. -/
def insertByTime (x : PReport) : List PReport → List PReport
  | [] => [x]
  | y :: ys => if timeKeyLE x y then x :: y :: ys else y :: insertByTime x ys

/-- Python's stable `sorted` by creation time. -/
def sortByTime (l : List PReport) : List PReport := l.foldr insertByTime []

/-- Embeds `_find_eligible_clusters`: walk the pool chronologically; every
report that is not yet processed, unlinked, of eligible status and carrying
coordinates and a timestamp seeds a candidate cluster, which is narrowed to
the seed's issue type, normalized city, eligible statuses and unlinked
members; clusters of size ≥ 5 are kept and their members marked processed
(which only stops them from seeding further clusters).  One iteration of
the seed loop: -/
def eligibleClustersStep (d : Dist) (sorted : List PReport)
    (acc : List (List PReport) × List String) (report : PReport) :
    List (List PReport) × List String :=
  if report.id = "" ∨ report.id ∈ acc.2 then acc
  else if report.issue_id ≠ "" then acc
  else if ¬ (report.status ∈ VALID_STATUSES) then acc
  else
    match report.latitude, report.longitude, report.created_at with
    | some lat, some lon, some t =>
      let cluster0 := clusterReports d sorted lat lon t
      let cluster := cluster0.filter (fun r =>
        r.issue_type = report.issue_type ∧
          normalizeCityName r.city = normalizeCityName report.city ∧
          r.status ∈ VALID_STATUSES ∧ r.issue_id = "")
      if MIN_REPORTS_FOR_ISSUE ≤ cluster.length then
        (acc.1 ++ [cluster], acc.2 ++ (cluster.map PReport.id).filter (fun i => i ≠ ""))
      else acc
    | _, _, _ => acc

/-- The full seed loop of `_find_eligible_clusters`. -/
def findEligibleClusters (d : Dist) (reports : List PReport) : List (List PReport) :=
  let sorted := sortByTime reports
  (sorted.foldl (eligibleClustersStep d sorted)
    (([], []) : List (List PReport) × List String)).1

/-- Firestore `reports` lookup by document id. -/
def lookupReport (reports : List PReport) (rid : String) : Option PReport :=
  reports.find? (fun p => p.id = rid)

/-- Fetch the stored reports with the given ids, skipping missing ones (the
source's per-id `get` with its `except: pass`). -/
def fetchReports (reports : List PReport) (ids : List String) : List PReport :=
  ids.filterMap (lookupReport reports)

/-- Set `issue_id` on one stored report. -/
def updateReportIssueId (reports : List PReport) (rid eid : String) : List PReport :=
  reports.map (fun p => if p.id = rid then { p with issue_id := eid } else p)

/-- Firestore `issues` lookup by document id. -/
def lookupIssue (issues : List Issue) (iid : String) : Option Issue :=
  issues.find? (fun i => i.id = iid)

/-- Apply an update to one stored issue. -/
def updateIssue (issues : List Issue) (iid : String) (f : Issue → Issue) : List Issue :=
  issues.map (fun i => if i.id = iid then f i else i)

/-- Embeds `_find_existing_issue`: query the issues of the normalized city
and issue type, then return the first ACTIVE one with coordinates within
`PROXIMITY_METERS` of the given centroid. -/
def findExistingIssue (d : Dist) (issues : List Issue) (issueType city : String)
    (centroidLat centroidLon : QV) : Option String :=
  ((issues.filter (fun i => i.city = normalizeCityName city ∧ i.issue_type = issueType)).find?
    (fun i =>
      decide (i.status = "ACTIVE") &&
        (match i.latitude, i.longitude with
          | some ilat, some ilon => decide (d centroidLat centroidLon ilat ilon ≤ PROXIMITY_METERS)
          | _, _ => false))).map Issue.id

end IssueAggregation

namespace IssueConfidence

/-- Embeds `_score_to_confidence_label` (`issue_confidence_engine.py`), in
twentieths: < 0.4 LOW, < 0.7 MEDIUM, else HIGH. -/
def scoreToConfidenceLabel (s : ℤ) : String :=
  if s < 8 then "LOW" else if s < 14 then "MEDIUM" else "HIGH"

/-- Embeds `report.get("ip_address_hash") or report.get("ip_address")`. -/
def reporterIdOf (r : PReport) : String :=
  if r.ip_address_hash ≠ "" then r.ip_address_hash else r.ip_address

/-- The distinct truthy reporter identities of the linked reports. -/
def uniqueReporters (reports : List PReport) : ℕ :=
  (dedupKeepFirst ((reports.map reporterIdOf).filter (fun ip => ip ≠ ""))).length

/-- Embeds `_calculate_confidence_score`, scores in twentieths: base 0.2;
+0.2 when the fetched count exceeds the stored `report_count` by ≥ 3;
+0.15 for more than one distinct reporter identity; +0.15 when the issue is
older than two hours; +0.10 when any linked report carries media; capped at
1.0. -/
def calcConfidenceScore (now : ℤ) (issue : Issue) (reports : List PReport) :
    ℤ × String :=
  let additional : ℤ := (reports.length : ℤ) - (issue.report_count : ℤ)
  let s1 : ℤ := 4
  let acc2 :=
    if 3 ≤ additional then
      (s1 + 4, [toString additional ++ " additional reports received"])
    else (s1, ([] : List String))
  let uniq := uniqueReporters reports
  let acc3 :=
    if 1 < uniq then
      (acc2.1 + 3, acc2.2 ++ [toString uniq ++ " unique reporters"])
    else acc2
  let acc4 :=
    match issue.created_at with
    | some ct =>
      if 7200 < now - ct then
        (acc3.1 + 3, acc3.2 ++ ["Persisted for " ++ toString ((now - ct) / 3600) ++ " hours"])
      else acc3
    | none => acc3
  let acc5 :=
    if reports.any (fun r => ¬ r.media_urls.isEmpty) then
      (acc4.1 + 2, acc4.2 ++ ["Media evidence present"])
    else acc4
  let finalScore := min acc5.1 20
  let reason :=
    if acc5.2 = [] then "Issue created from " ++ toString reports.length ++ " reports"
    else String.intercalate "; " acc5.2
  (finalScore, reason)

/-- Embeds `recalculate_issue_confidence`: re-read the linked reports,
recompute score and label, append a timeline entry exactly when score or
label changed, and write the result (also refreshing `report_count` to the
fetched count, "in case reports were deleted"). -/
def recalcIssueConfidence (now : ℤ) (st : AggState) (issueId : String) : AggState :=
  match IssueAggregation.lookupIssue st.issues issueId with
  | none => st
  | some issue =>
    if issue.report_ids = [] then st
    else
      let reports := IssueAggregation.fetchReports st.reports issue.report_ids
      let previousScore := issue.confidence_score
      let previousConfidence := issue.confidence
      let computed := calcConfidenceScore now issue reports
      let newConfidence := scoreToConfidenceLabel computed.1
      let changed := computed.1 ≠ previousScore ∨ newConfidence ≠ previousConfidence
      let timeline :=
        if changed then
          issue.confidence_timeline ++
            [⟨now, some previousConfidence, some previousScore, newConfidence,
              computed.1, computed.2⟩]
        else issue.confidence_timeline
      { st with
          issues := IssueAggregation.updateIssue st.issues issueId (fun i =>
            { i with
                confidence := newConfidence, confidence_score := computed.1,
                confidence_reason := computed.2, confidence_timeline := timeline,
                updated_at := now, report_count := reports.length }) }

end IssueConfidence

namespace IssueAggregation

/-- The create branch of `create_or_update_issue_from_cluster`: write a new
ACTIVE issue (initial confidence LOW / 0.2, `created_at` the earliest
member time), link the member reports to it, then recalculate its
confidence.  Issue ids are drawn from the state's counter, standing in for
Firestore auto-ids. -/
def createNewIssueFromCluster (now : ℤ) (st : AggState) (cluster : List PReport)
    (issueType city locality : String) (centroidLat centroidLon : QV)
    (reportIds : List String) : AggState × Option String :=
  let earliestTime :=
    match (cluster.filterMap PReport.created_at).min? with
    | some m => m
    | none => now
  let issueId := "issue-" ++ toString st.nextIssueNum
  let reason := "Issue created from " ++ toString cluster.length ++ " reports"
  let newIssue : Issue :=
    { id := issueId, issue_type := issueType, city := city, locality := locality,
      latitude := some centroidLat, longitude := some centroidLon,
      status := "ACTIVE", report_count := cluster.length, report_ids := reportIds,
      confidence := "LOW", confidence_score := 4, confidence_reason := reason,
      confidence_timeline := [⟨now, none, none, "LOW", 4, reason⟩],
      created_at := some earliestTime, updated_at := now }
  let st1 : AggState :=
    { st with issues := st.issues ++ [newIssue], nextIssueNum := st.nextIssueNum + 1 }
  let st2 : AggState :=
    { st1 with
        reports := reportIds.foldl (fun rs rid => updateReportIssueId rs rid issueId)
          st1.reports }
  (IssueConfidence.recalcIssueConfidence now st2 issueId, some issueId)

/-- Embeds `create_or_update_issue_from_cluster`: reject clusters below the
threshold, with an empty type or an unusable city, or with an invalid
centroid; merge into a matching ACTIVE issue when one exists (union the
report-id sets, recompute centroid and dominant locality over the cluster
plus the previously linked reports fetched from the store, skipping the
update when the recomputed centroid is invalid), otherwise create a new
issue.  The `math.isnan` guard of the source cannot fire in exact
arithmetic; the `(0.0, 0.0)` guard is `QV.isZero` on both coordinates. -/
def createOrUpdateIssueFromCluster (d : Dist) (now : ℤ) (st : AggState)
    (cluster : List PReport) : AggState × Option String :=
  if cluster.length < MIN_REPORTS_FOR_ISSUE then (st, none)
  else
    match cluster with
    | [] => (st, none)
    | c0 :: _ =>
      let issueType := c0.issue_type
      let city := normalizeCityName c0.city
      if issueType = "" ∨ city = "" ∨ city = "UNKNOWN" then (st, none)
      else
        let centroid := calcCentroid cluster
        if centroid.1.isZero && centroid.2.isZero then (st, none)
        else
          let locality := dominantLocality cluster
          let reportIds := (cluster.map PReport.id).filter (fun i => i ≠ "")
          match findExistingIssue d st.issues issueType city centroid.1 centroid.2 with
          | some existingId =>
            match lookupIssue st.issues existingId with
            | none =>
              createNewIssueFromCluster now st cluster issueType city locality
                centroid.1 centroid.2 reportIds
            | some existing =>
              let existingIds := dedupKeepFirst existing.report_ids
              let allIds := dedupKeepFirst (existing.report_ids ++ reportIds)
              let fetched :=
                fetchReports st.reports (existingIds.filter (fun rid => ¬ rid ∈ reportIds))
              let allReports := cluster ++ fetched
              let newCentroid := calcCentroid allReports
              if newCentroid.1.isZero && newCentroid.2.isZero then (st, some existingId)
              else
                let newLocality := dominantLocality allReports
                let st1 : AggState :=
                  { st with
                      issues := updateIssue st.issues existingId (fun i =>
                        { i with
                            report_count := allIds.length, report_ids := allIds,
                            latitude := some newCentroid.1,
                            longitude := some newCentroid.2,
                            locality := newLocality, updated_at := now }) }
                let newOnes := reportIds.filter (fun rid => ¬ rid ∈ existingIds)
                let st2 : AggState :=
                  { st1 with
                      reports := newOnes.foldl
                        (fun rs rid => updateReportIssueId rs rid existingId) st1.reports }
                (IssueConfidence.recalcIssueConfidence now st2 existingId, some existingId)
          | none =>
            createNewIssueFromCluster now st cluster issueType city locality
              centroid.1 centroid.2 reportIds

/-- Python float truthiness of an optional coordinate: present and not 0.0
(the `not all([lat, lon, ...])` test of the incremental path). -/
def truthyCoord (c : Option QV) : Bool :=
  match c with
  | some q => ¬ q.isZero
  | none => false

/-- Embeds the per-report incremental-join block of
`attempt_issue_aggregation` (Phase 5B.1): an unlinked report with truthy
coordinates, issue type and usable normalized city is linked into the first
matching ACTIVE issue; the report's `issue_id` is set first, then the
issue's report-id set, count, centroid and locality are rewritten (skipped
when the recomputed centroid is invalid) and its confidence recalculated. -/
def incrementalLinkStep (d : Dist) (now : ℤ) (st : AggState) (r : PReport) :
    AggState × Option String :=
  let city := normalizeCityName r.city
  if ¬ (truthyCoord r.latitude && truthyCoord r.longitude &&
      decide (r.issue_type ≠ "") && decide (city ≠ "")) ∨ city = "UNKNOWN" then (st, none)
  else
    match r.latitude, r.longitude with
    | some lat, some lon =>
      (match findExistingIssue d st.issues r.issue_type city lat lon with
        | none => (st, none)
        | some eid =>
          let st1 : AggState := { st with reports := updateReportIssueId st.reports r.id eid }
          match lookupIssue st1.issues eid with
          | none => (st1, none)
          | some issue =>
            let allIds := dedupKeepFirst (issue.report_ids ++ [r.id])
            let fetched :=
              fetchReports st1.reports (allIds.filter (fun rid => rid ≠ r.id))
            let allForCentroid := r :: fetched
            let newCentroid := calcCentroid allForCentroid
            if newCentroid.1.isZero && newCentroid.2.isZero then (st1, none)
            else
              let newLocality := dominantLocality allForCentroid
              let st2 : AggState :=
                { st1 with
                    issues := updateIssue st1.issues eid (fun i =>
                      { i with
                          report_count := allIds.length, report_ids := allIds,
                          latitude := some newCentroid.1,
                          longitude := some newCentroid.2,
                          locality := newLocality, updated_at := now }) }
              (IssueConfidence.recalcIssueConfidence now st2 eid, some eid))
    | _, _ => (st, none)

/-- Embeds the pool-building loop of `attempt_issue_aggregation`: eligible
status, coordinates present, non-empty issue type, usable normalized city
(written back into the document), and a creation time within the trailing
24 hours.  The per-document decision: -/
def poolFilter (now : ℤ) (data : PReport) : Option PReport :=
  if ¬ (data.status ∈ VALID_STATUSES) then none
  else if data.latitude = none ∨ data.longitude = none then none
  else
    if data.issue_type = "" ∨ normalizeCityName data.city = "" ∨
        normalizeCityName data.city = "UNKNOWN" then none
    else
      match data.created_at with
      | some t =>
        if t < now - 86400 then none
        else some { data with city := normalizeCityName data.city }
      | none => none

/-- The pool is the store through the per-document filter. -/
def buildPool (now : ℤ) (reports : List PReport) : List PReport :=
  reports.filterMap (poolFilter now)

/-- Embeds `attempt_issue_aggregation`: build the 24-hour pool, materialize
every eligible cluster, then test each still-unlinked pool report (the
in-memory pool, whose documents were not rewritten by the materialization)
against the existing issues, collecting the created or updated issue ids.
Materializing one cluster: -/
def materializeStep (d : Dist) (now : ℤ) (acc : AggState × List String)
    (cluster : List PReport) : AggState × List String :=
  let stepped := createOrUpdateIssueFromCluster d now acc.1 cluster
  match stepped.2 with
  | some iid => (stepped.1, acc.2 ++ [iid])
  | none => (stepped.1, acc.2)

/-- Run one incremental-join attempt, collecting the updated issue id. -/
def incrementalFoldStep (d : Dist) (now : ℤ) (acc : AggState × List String)
    (r : PReport) : AggState × List String :=
  let stepped := incrementalLinkStep d now acc.1 r
  match stepped.2 with
  | some iid => (stepped.1, if iid ∈ acc.2 then acc.2 else acc.2 ++ [iid])
  | none => (stepped.1, acc.2)

/-- The full aggregation pass `attempt_issue_aggregation`. -/
def attemptIssueAggregation (d : Dist) (now : ℤ) (st : AggState) :
    AggState × List String :=
  let pool := buildPool now st.reports
  let clusters := findEligibleClusters d pool
  let afterClusters :=
    clusters.foldl (materializeStep d now) ((st, []) : AggState × List String)
  let unlinked := pool.filter (fun r => r.issue_id = "")
  unlinked.foldl (incrementalFoldStep d now) afterClusters

end IssueAggregation

namespace IssueAggregation

/-- The concrete distance instance of the closed examples below: all their
reports sit at identical coordinates, where the source's haversine is
exactly 0 metres. -/
def dZero : Dist := fun _ _ _ _ => 0

/-- A pool report of the concrete aggregation instances: Water issue in
pune at fixed coordinates (20, 30), reporter hash h1. -/
def mkPoolReport (idn : String) (t : ℤ) : PReport :=
  { baseReport with
      id := idn, issue_type := "Water", city := "pune", locality := "mg road",
      status := "UNDER_REVIEW", latitude := some (QV.ofInt 20),
      longitude := some (QV.ofInt 30), created_at := some t, ip_address_hash := "h1" }

/-- C1 overlap instance: reports A-D at second 0-180, E at 1.5 h, F-I just
inside two hours of E but outside two hours of A-D.  The cluster seeded by
A is {A,B,C,D,E}; its members are marked processed, yet E still lands in
the cluster seeded by F, {E,F,G,H,I}. -/
def c1OverlapPool : List PReport :=
  [mkPoolReport "A" 0, mkPoolReport "B" 60, mkPoolReport "C" 120,
   mkPoolReport "D" 180, mkPoolReport "E" 5400, mkPoolReport "F" 12240,
   mkPoolReport "G" 12300, mkPoolReport "H" 12360, mkPoolReport "I" 12420]

/-- A report of the zero-centroid instance: coordinates in millionths of a
degree (a fraction of a metre apart), chosen so the centroid is exactly
(0, 0). -/
def mkZeroCentroidReport (idn : String) (t la lo : ℤ) : PReport :=
  { baseReport with
      id := idn, issue_type := "Water", city := "pune", locality := "mg road",
      status := "UNDER_REVIEW", latitude := some ⟨la, 1000000⟩,
      longitude := some ⟨lo, 1000000⟩, created_at := some t, ip_address_hash := "h1" }

/-- C1 zero-centroid instance: five qualifying reports within a metre of
the equator/prime-meridian crossing whose exact centroid is (0, 0). -/
def c1ZeroCentroidPool : List PReport :=
  [mkZeroCentroidReport "z1" 0 1 2, mkZeroCentroidReport "z2" 60 (-1) (-2),
   mkZeroCentroidReport "z3" 120 1 2, mkZeroCentroidReport "z4" 180 (-1) (-2),
   mkZeroCentroidReport "z5" 240 0 0]

/-- Five qualifying reports, the concrete cluster-materialization pool. -/
def c1FivePool : List PReport :=
  [mkPoolReport "A" 0, mkPoolReport "B" 60, mkPoolReport "C" 120,
   mkPoolReport "D" 180, mkPoolReport "E" 240]

/-- State after the first pass over `c1FivePool`: one issue of five linked
reports. -/
def c2BaseState : AggState :=
  (attemptIssueAggregation dZero 300 ⟨c1FivePool, [], 0⟩).1

/-- C2 instance: a sixth qualifying report arrives after the issue exists. -/
def c2SixthReport : PReport := mkPoolReport "F" 400

/-- C2 state with the sixth report stored. -/
def c2SixthState : AggState :=
  { c2BaseState with reports := c2BaseState.reports ++ [c2SixthReport] }

/-- The single issue of the base state, extracted for the sixth-report
instance (the fallback branch is unused: the base state holds exactly one
issue). -/
def c2Issue0 : Issue :=
  match c2BaseState.issues with
  | [i] => i
  | _ =>
    { id := "", issue_type := "", city := "", locality := "", latitude := none,
      longitude := none, status := "", report_count := 0, report_ids := [],
      confidence := "", confidence_score := 0, confidence_reason := "",
      confidence_timeline := [], created_at := none, updated_at := 0 }

/-- C2 counterexample instance: a qualifying report whose latitude is
exactly 0.0 — a valid coordinate, but falsy in Python. -/
def c2Lat0Report : PReport :=
  { baseReport with
      id := "Z", issue_type := "Water", city := "pune", locality := "mg road",
      status := "UNDER_REVIEW", latitude := some (QV.ofInt 0),
      longitude := some (QV.ofInt 30), created_at := some 400,
      ip_address_hash := "h2" }

/-- C2 counterexample state: the five-report issue exists and the
latitude-0 report is stored, unlinked. -/
def c2Lat0State : AggState :=
  { c2BaseState with reports := c2BaseState.reports ++ [c2Lat0Report] }

/-- C4 instance: an issue whose stored count (5) lags its 8 linked
reports, the shape left behind when reports were linked without an
intervening confidence recalculation. -/
def c4Issue : Issue :=
  { id := "issue-X", issue_type := "Water", city := "pune", locality := "mg road",
    latitude := some (QV.ofInt 20), longitude := some (QV.ofInt 30),
    status := "ACTIVE", report_count := 5,
    report_ids := ["A", "B", "C", "D", "E", "F", "G", "H"],
    confidence := "LOW", confidence_score := 4, confidence_reason := "",
    confidence_timeline := [], created_at := some 0, updated_at := 0 }

/-- The eight stored reports linked to the C4 issue. -/
def c4Reports : List PReport :=
  [mkPoolReport "A" 0, mkPoolReport "B" 60, mkPoolReport "C" 120,
   mkPoolReport "D" 180, mkPoolReport "E" 240, mkPoolReport "F" 300,
   mkPoolReport "G" 360, mkPoolReport "H" 420]

/-- C4 counterexample state: count 5, eight linked reports. -/
def c4State : AggState := ⟨c4Reports, [c4Issue], 1⟩

/-- C4 witness instance: the same store with the count already resynced. -/
def c4SyncIssue : Issue :=
  { c4Issue with report_count := 8 }

/-- C4 witness state. -/
def c4SyncState : AggState := ⟨c4Reports, [c4SyncIssue], 1⟩

/-- The centroid the specification describes (C10, spec-modelled for
comparison): the arithmetic mean over the coordinate-bearing member
reports only, reports without coordinates not contributing; `none` when no
member carries coordinates. -/
def claimedCentroid (reports : List PReport) : Option (QV × QV) :=
  let withCoords := reports.filter (fun r => r.latitude.isSome && r.longitude.isSome)
  if withCoords.length = 0 then none
  else
    some ((withCoords.foldl (fun acc r => acc.add (latOrZero r))
        (QV.ofInt 0)).divNat withCoords.length,
      (withCoords.foldl (fun acc r => acc.add (lonOrZero r))
        (QV.ofInt 0)).divNat withCoords.length)

/-- C10 counterexample pair: one report at (10, 10) and one without
coordinates. -/
def c10Pair : List PReport :=
  [{ baseReport with
      id := "A", latitude := some (QV.ofInt 10), longitude := some (QV.ofInt 10) },
   { baseReport with
      id := "B" }]

/-- C10 merge-guard instance: a cluster member at (10, 10). -/
def c10P (i : String) : PReport :=
  { baseReport with
      id := i, issue_type := "Water", city := "pune",
      latitude := some (QV.ofInt 10), longitude := some (QV.ofInt 10) }

/-- C10 merge-guard instance: the five-member cluster. -/
def c10Cluster : List PReport :=
  [c10P "P1", c10P "P2", c10P "P3", c10P "P4", c10P "P5"]

/-- C10 merge-guard instance: a previously linked report at (-10, -10). -/
def c10N (i : String) : PReport :=
  { baseReport with
      id := i, latitude := some (QV.ofInt (-10)), longitude := some (QV.ofInt (-10)) }

/-- C10 merge-guard instance: the stored ACTIVE issue holding N1-N5. -/
def c10Existing : Issue :=
  { id := "issue-9", issue_type := "Water", city := "pune", locality := "",
    latitude := some (QV.ofInt 10), longitude := some (QV.ofInt 10),
    status := "ACTIVE", report_count := 5,
    report_ids := ["N1", "N2", "N3", "N4", "N5"],
    confidence := "LOW", confidence_score := 4, confidence_reason := "",
    confidence_timeline := [], created_at := some 0, updated_at := 0 }

/-- C10 merge-guard state: cluster and linked reports stored, one issue. -/
def c10State : AggState :=
  ⟨c10Cluster ++ [c10N "N1", c10N "N2", c10N "N3", c10N "N4", c10N "N5"],
   [c10Existing], 0⟩

/-- C3 trace: after the issue formed from five reports, three further
qualifying reports arrive (same reporter, no media, within the window). -/
def c3GrownState : AggState :=
  { c2BaseState with
      reports := c2BaseState.reports ++
        [mkPoolReport "F" 400, mkPoolReport "G" 460, mkPoolReport "H" 520] }

/-- C3 trace: the second aggregation pass links the three new reports and
recalculates confidence. -/
def c3FinalState : AggState :=
  (attemptIssueAggregation dZero 600 c3GrownState).1

end IssueAggregation

namespace IssueConfidence

/-- Modelled from the claim's wording (C3 as stated): base 0.2, +0.2 when
the linked-report count grew by at least 3 beyond the count recorded when
the issue was formed, +0.15 for more than one distinct reporter, +0.15 past
two hours of age, +0.10 for media, capped at 1.0 — in twentieths. -/
def claimIssueScore (formationCount currentCount : ℕ) (multiReporter olderThan2h
    anyMedia : Bool) : ℤ :=
  min ((4 : ℤ) + (if 3 ≤ (currentCount : ℤ) - (formationCount : ℤ) then 4 else 0) +
    (if multiReporter then 3 else 0) + (if olderThan2h then 3 else 0) +
    (if anyMedia then 2 else 0)) 20

end IssueConfidence

namespace IssueAggregation

/-- Decidable phrasing of "the two reports' coordinates are within the
proximity threshold" (vacuously true when a coordinate is missing). -/
def proxOK (d : Dist) (r q : PReport) : Bool :=
  match r.latitude, r.longitude, q.latitude, q.longitude with
  | some a, some b, some x, some y => decide (d a b x y ≤ PROXIMITY_METERS)
  | _, _, _, _ => true

/-- Decidable phrasing of "the two reports' timestamps are within the
two-hour window" (vacuously true when a timestamp is missing). -/
def timeOK (r q : PReport) : Bool :=
  match r.created_at, q.created_at with
  | some a, some b => decide ((a - b).natAbs ≤ 7200)
  | _, _ => true

/-- Decidable phrasing of "the report has a timestamp inside the trailing
24-hour pool window". -/
def timeInWindow (now : ℤ) (r : PReport) : Bool :=
  match r.created_at with
  | some t => decide (now - 86400 ≤ t)
  | none => false

end IssueAggregation

namespace IngestionGate

/-- Splitting fold of Python `str.split()`: accumulate the current word and
the words after it. -/
def splitWSAux (c : Char) (acc : List Char × List (List Char)) :
    List Char × List (List Char) :=
  if isSpaceChar c then
    if acc.1 = [] then ([], acc.2) else ([], acc.1 :: acc.2)
  else (c :: acc.1, acc.2)

/-- `text.lower().split()`: lowercase words, whitespace-separated, empties
dropped. -/
def wordsOf (s : String) : List String :=
  let r := (s.data.map asciiLowerChar).foldr splitWSAux ([], [])
  (if r.1 = [] then r.2 else r.1 :: r.2).map String.mk

/-- Embeds `_text_similarity` (`duplicate_detection.py`): word-set overlap
`len(intersection) / len(union)` over the lowercased word sets, 0 when a
text or word set is empty. -/
def textSimilarity (t1 t2 : String) : ℚ :=
  if t1 = "" ∨ t2 = "" then 0
  else
    let w1 := dedupKeepFirst (wordsOf t1)
    let w2 := dedupKeepFirst (wordsOf t2)
    if w1 = [] ∨ w2 = [] then 0
    else
      let inter := w1.filter (fun w => w ∈ w2)
      let uni := dedupKeepFirst (w1 ++ w2)
      if uni = [] then 0
      else (inter.length : ℚ) / (uni.length : ℚ)

/-- One document's duplicate test inside the `check_duplicate` loop: same
IP hash first (when the caller has one), then distance at most 50 m (when
both sides carry coordinates), then description similarity above 0.7. -/
def checkDuplicateEntry (d : IssueAggregation.Dist) (ipHash : String)
    (lat lon : Option QV) (desc : String) (p : PReport) : Option String :=
  if ipHash ≠ "" ∧ p.ip_address_hash = ipHash then some "same_ip"
  else
    match lat, lon, p.latitude, p.longitude with
    | some la, some lo, some pla, some plo =>
      if d la lo pla plo ≤ 50 then some "same_location"
      else if (7 : ℚ) / 10 < textSimilarity desc p.description then
        some "similar_description"
      else none
    | _, _, _, _ =>
      if (7 : ℚ) / 10 < textSimilarity desc p.description then
        some "similar_description"
      else none

/-- The first matching duplicate (the source collects matches in stream
order and returns `duplicates[0]`). -/
def firstDuplicate (d : IssueAggregation.Dist) (ipHash : String)
    (lat lon : Option QV) (desc : String) (reports : List PReport) :
    Option (String × String) :=
  reports.findSome? (fun p =>
    (checkDuplicateEntry d ipHash lat lon desc p).map (fun reason => (p.id, reason)))

/-- Embeds `check_rate_limit`: no IP hash allows immediately without a
store read; otherwise the fallible query counts this hash''s reports of the
trailing hour and 5 or more means limited.  The query''s failure is the
service''s: the source wraps no `try` around it. -/
def checkRateLimit (store : Except Unit (List PReport)) (now : ℤ)
    (ipHash : String) : Except Unit Bool :=
  if ipHash = "" then .ok false
  else
    match store with
    | .error e => .error e
    | .ok reports =>
      .ok (5 ≤ (reports.filter (fun p => decide (p.ip_address_hash = ipHash) &&
        (match p.created_at with
          | some t => decide (now - 3600 ≤ t)
          | none => false))).length)

/-- Embeds `check_duplicate`: the fallible locality query of the trailing
15 minutes, then the per-document duplicate loop; again no `try` guards
the read. -/
def checkDuplicate (store : Except Unit (List PReport))
    (d : IssueAggregation.Dist) (now : ℤ) (ipHash locality : String)
    (lat lon : Option QV) (desc : String) : Except Unit (Option (String × String)) :=
  match store with
  | .error e => .error e
  | .ok reports =>
    let recent := reports.filter (fun p => decide (p.locality = locality) &&
      (match p.created_at with
        | some t => decide (now - 900 ≤ t)
        | none => false))
    .ok (firstDuplicate d ipHash lat lon desc recent)

/-- The decision the ingestion gate of `create_report` reaches for a
submission. -/
inductive GateOutcome where
  | rateLimited : GateOutcome
  | duplicate : String → GateOutcome
  | proceed : GateOutcome
  deriving Repr, DecidableEq

/-- Embeds the gate portion of `create_report` (`report_service.py` lines
52-78): rate-limit check first (a hit raises `ValueError`), duplicate
check second (a hit raises `ValueError`), then the submission proceeds to
the report write.  An exception from either store read propagates to the
caller — `routes/reports.py` maps it to HTTP 500. -/
def createReportGate (store : Except Unit (List PReport))
    (d : IssueAggregation.Dist) (now : ℤ) (ipHash locality : String)
    (lat lon : Option QV) (desc : String) : Except Unit GateOutcome :=
  match checkRateLimit store now ipHash with
  | .error e => .error e
  | .ok true => .ok .rateLimited
  | .ok false =>
    match checkDuplicate store d now ipHash locality lat lon desc with
    | .error e => .error e
    | .ok (some dup) => .ok (.duplicate dup.1)
    | .ok none => .ok .proceed

end IngestionGate

/-- Invariant carried through the incremental-join loop: the store holds a
single issue whose member-id list is fixed, whose count equals that list's
length, and whose report store still holds exactly the original ids. -/
@[reducible] def AggInv (idsL rsIds : List String) (st : AggState) : Prop :=
  ∃ J : Issue, st.issues = [J] ∧ J.report_ids = idsL ∧
    J.report_count = idsL.length ∧ st.reports.map PReport.id = rsIds

/-! ## Theorems -/

/-- C7: the workflow accepts a transition between genuine states iff the
target equals the current state (no-op) or is the immediate successor in
the chain UNDER_REVIEW → VERIFIED → ACTION_TAKEN → CLOSED; every other
request is rejected with an error enumerating the allowed next states of
the current state — in particular UNDER_REVIEW → ACTION_TAKEN is rejected
with allowed next states `[VERIFIED]`, and CLOSED → any other state is
rejected with an empty allowed list. -/
theorem statusWorkflow_linear_chain :
    (∀ s t : StatusWorkflow.ReportStatus,
      StatusWorkflow.isValidTransition s.value t.value = true ↔
        (s = t ∨ StatusWorkflow.nextInChain s = some t)) ∧
    (∀ s t : StatusWorkflow.ReportStatus,
      StatusWorkflow.isValidTransition s.value t.value = false →
        StatusWorkflow.validateAndTransition s.value t.value "reviewer" "" =
          Except.error ⟨s.value, t.value,
            (StatusWorkflow.ALLOWED_TRANSITIONS s).map StatusWorkflow.ReportStatus.value⟩) ∧
    StatusWorkflow.validateAndTransition "UNDER_REVIEW" "ACTION_TAKEN" "reviewer" "" =
      Except.error ⟨"UNDER_REVIEW", "ACTION_TAKEN", ["VERIFIED"]⟩ ∧
    (∀ t : StatusWorkflow.ReportStatus, t ≠ StatusWorkflow.ReportStatus.CLOSED →
      StatusWorkflow.validateAndTransition "CLOSED" t.value "reviewer" "" =
        Except.error ⟨"CLOSED", t.value, []⟩) := by
  refine ⟨?_, ?_, ?_, ?_⟩
  · intro s t; cases s <;> cases t <;> decide
  · intro s t h; revert h; cases s <;> cases t <;> intro h <;>
      first
        | rfl
        | exact absurd h (by decide)
  · rfl
  · intro t h; cases t <;> first | exact absurd rfl h | rfl

/-- Helper: the similar-report query of the engine counts the same reports
as the single combined filter used in the amended claim statement. -/
theorem findSimilar_length_eq (store : List PReport) (cat loc ex : String) (t : ℤ) :
    (ConfidenceEngine.findSimilarReportsByLocality store cat loc t ex).length =
      (store.filter (fun p => p.id ≠ ex ∧ p.ai_category = cat ∧ p.locality = loc ∧
        ConfidenceEngine.tsAtLeast p (t - 30 * 60))).length := by
  induction store with
  | nil => rfl
  | cons p l ih =>
    by_cases h1 : p.locality = loc <;>
      by_cases h2 : ConfidenceEngine.tsAtLeast p (t - 30 * 60) = true <;>
      by_cases h3 : p.id = ex <;>
      by_cases h4 : p.ai_category = cat <;>
      simp_all [ConfidenceEngine.findSimilarReportsByLocality, List.filter_cons]

/-- C5 (amended): when the engine does not skip the report (id, locality and
timestamp present), the label it writes for the target is: HIGH on any media;
LOW when the AI category is empty, Unclassified or General (no fall-back to
the user-selected issue type); otherwise HIGH / MEDIUM / LOW as the count of
same-AI-category, same-locality reports with `created_at ≥ t − 30 min`
(plus the report itself) reaches 4, reaches 2, or stays at 1. -/
theorem reportConfidence_label_amended (store : List PReport) (r : PReport) (t : ℤ)
    (hca : r.created_at = some t) (hid : r.id ≠ "") (hloc : r.locality ≠ "") :
    ConfidenceEngine.engineTargetLabel store r =
      some (ConfidenceEngine.amendedReportLabel store r t) := by
  have hfl := findSimilar_length_eq store r.ai_category r.locality r.id t
  simp only [ConfidenceEngine.engineTargetLabel, ConfidenceEngine.recalcConfidenceUpdates,
    ConfidenceEngine.amendedReportLabel, hca]
  rw [if_neg (by simp [hid, hloc])]
  rw [hfl]
  split_ifs <;> rfl

/-- Helper: a confidence write emitted for a report other than the target
comes from a matched similar report whose stored label ranks strictly below
the written label, and the written label equals the one computed for the
target report. -/
theorem peerUpdate_from_similar (store : List PReport) (r : PReport)
    (u : ConfidenceEngine.ConfUpdate)
    (hu : u ∈ ConfidenceEngine.recalcConfidenceUpdates store r) (hner : u.rid ≠ r.id) :
    some u.conf = ConfidenceEngine.engineTargetLabel store r ∧
    ∃ q, q ∈ store ∧ q.id = u.rid ∧
      ConfidenceEngine.confidenceRank q.confidence <
        ConfidenceEngine.confidenceRank u.conf := by
  have hsub : ∀ cat loc t ex x,
      x ∈ ConfidenceEngine.findSimilarReportsByLocality store cat loc t ex → x ∈ store := by
    intro cat loc t ex x hx
    exact List.mem_of_mem_filter (List.mem_of_mem_filter hx)
  simp only [ConfidenceEngine.engineTargetLabel, ConfidenceEngine.recalcConfidenceUpdates] at hu ⊢
  cases hca : r.created_at with
  | none => simp only [hca] at hu; simp at hu
  | some t =>
    simp only [hca] at hu ⊢
    by_cases h1 : r.id = "" ∨ r.locality = ""
    · rw [if_pos h1] at hu; simp at hu
    · rw [if_neg h1] at hu ⊢
      by_cases h2 : r.media_urls ≠ []
      · rw [if_pos h2] at hu
        simp only [List.mem_singleton] at hu
        exact absurd (by rw [hu]) hner
      · rw [if_neg h2] at hu ⊢
        by_cases h3 : r.ai_category = "Unclassified" ∨ r.ai_category = "General" ∨
            r.ai_category = ""
        · rw [if_pos h3] at hu
          simp only [List.mem_singleton] at hu
          exact absurd (by rw [hu]) hner
        · rw [if_neg h3] at hu ⊢
          by_cases h4 : 4 ≤ (ConfidenceEngine.findSimilarReportsByLocality store
              r.ai_category r.locality t r.id).length + 1
          · rw [if_pos h4] at hu ⊢
            rcases List.mem_cons.mp hu with h | h
            · exact absurd (by rw [h]) hner
            · rcases List.mem_map.mp h with ⟨q, hqf, hqe⟩
              rcases List.mem_filter.mp hqf with ⟨hqsim, hqconf⟩
              simp only [decide_eq_true_eq] at hqconf
              have hconf : u.conf = "HIGH" := by rw [← hqe]
              have hrid2 : q.id = u.rid := by rw [← hqe]
              have hhigh : ConfidenceEngine.confidenceRank "HIGH" = 2 := by decide
              have hrank : ConfidenceEngine.confidenceRank q.confidence < 2 := by
                unfold ConfidenceEngine.confidenceRank
                split_ifs <;> omega
              exact ⟨by rw [hconf]; rfl, q, hsub _ _ _ _ _ hqsim, hrid2,
                by rw [hconf, hhigh]; exact hrank⟩
          · rw [if_neg h4] at hu ⊢
            by_cases h5 : 2 ≤ (ConfidenceEngine.findSimilarReportsByLocality store
                r.ai_category r.locality t r.id).length + 1
            · rw [if_pos h5] at hu ⊢
              rcases List.mem_cons.mp hu with h | h
              · exact absurd (by rw [h]) hner
              · rcases List.mem_map.mp h with ⟨q, hqf, hqe⟩
                rcases List.mem_filter.mp hqf with ⟨hqsim, hqconf⟩
                simp only [decide_eq_true_eq] at hqconf
                have hconf : u.conf = "MEDIUM" := by rw [← hqe]
                have hrid2 : q.id = u.rid := by rw [← hqe]
                have hmed : ConfidenceEngine.confidenceRank "MEDIUM" = 1 := by decide
                have hrank : ConfidenceEngine.confidenceRank q.confidence < 1 := by
                  unfold ConfidenceEngine.confidenceRank
                  rw [if_pos hqconf]
                  omega
                exact ⟨by rw [hconf]; rfl, q, hsub _ _ _ _ _ hqsim, hrid2,
                  by rw [hconf, hmed]; exact hrank⟩
            · rw [if_neg h5] at hu
              simp only [List.mem_singleton] at hu
              exact absurd (by rw [hu]) hner

/-- C6 (amended): matched peers are never downgraded — a stored report other
than the target keeps or raises its label under one engine run, and when it
changes, its previous label ranked strictly below the new one and the new
label is exactly the label computed for the target. (The claim's further
assertion that the target's own stored label never decreases is refuted
separately: the engine overwrites the target unconditionally.) -/
theorem reportConfidence_peer_never_downgraded (store : List PReport) (r p : PReport)
    (hnd : (store.map PReport.id).Nodup) (hp : p ∈ store) (hne : p.id ≠ r.id) :
    ConfidenceEngine.confidenceRank p.confidence ≤
      ConfidenceEngine.confidenceRank (ConfidenceEngine.updatedReport store r p).confidence ∧
    ((ConfidenceEngine.updatedReport store r p).confidence ≠ p.confidence →
      ConfidenceEngine.confidenceRank p.confidence <
        ConfidenceEngine.confidenceRank
          (ConfidenceEngine.updatedReport store r p).confidence ∧
      some (ConfidenceEngine.updatedReport store r p).confidence =
        ConfidenceEngine.engineTargetLabel store r) := by
  unfold ConfidenceEngine.updatedReport
  cases hfind : (ConfidenceEngine.recalcConfidenceUpdates store r).find?
      (fun u => u.rid = p.id) with
  | none => simp
  | some u =>
    have humem := List.mem_of_find?_eq_some hfind
    have hurid : u.rid = p.id := by
      have hfs := List.find?_some hfind
      simpa using hfs
    have hner : u.rid ≠ r.id := by rw [hurid]; exact hne
    obtain ⟨hlabel, q, hq_mem, hq_id, hq_rank⟩ :=
      peerUpdate_from_similar store r u humem hner
    have hqp : q = p := by
      refine List.inj_on_of_nodup_map hnd hq_mem hp ?_
      rw [hq_id, hurid]
    rw [hqp] at hq_rank
    simp only []
    constructor
    · exact le_of_lt hq_rank
    · intro _
      exact ⟨hq_rank, hlabel⟩

/-- C6 counterexample: the engine lowers the target report's own stored
label. `c6Target` is stored with confidence MEDIUM, carries no media, has a
genuine AI category and no remaining matched peer; re-running the engine on
it writes LOW, a strictly lower label, so "re-running the engine never
lowers its stored label (for any current label and any peer set)" is false
on the code. -/
theorem reportConfidence_monotonicity_counterexample :
    ConfidenceEngine.c6Target.confidence = "MEDIUM" ∧
    (ConfidenceEngine.updatedReport ConfidenceEngine.c6Store ConfidenceEngine.c6Target
        ConfidenceEngine.c6Target).confidence = "LOW" ∧
    ConfidenceEngine.confidenceRank "LOW" < ConfidenceEngine.confidenceRank "MEDIUM" := by
  decide

/-- C6 witness: the amended peer statement applied to a concrete store in
which the engine upgrades a LOW peer to MEDIUM. -/
theorem reportConfidence_peer_never_downgraded_witness :
    ConfidenceEngine.confidenceRank ConfidenceEngine.c6wPeer.confidence ≤
      ConfidenceEngine.confidenceRank (ConfidenceEngine.updatedReport
        ConfidenceEngine.c6wStore ConfidenceEngine.c6wTarget
        ConfidenceEngine.c6wPeer).confidence ∧
    ((ConfidenceEngine.updatedReport ConfidenceEngine.c6wStore ConfidenceEngine.c6wTarget
        ConfidenceEngine.c6wPeer).confidence ≠ ConfidenceEngine.c6wPeer.confidence →
      ConfidenceEngine.confidenceRank ConfidenceEngine.c6wPeer.confidence <
        ConfidenceEngine.confidenceRank (ConfidenceEngine.updatedReport
          ConfidenceEngine.c6wStore ConfidenceEngine.c6wTarget
          ConfidenceEngine.c6wPeer).confidence ∧
      some (ConfidenceEngine.updatedReport ConfidenceEngine.c6wStore
          ConfidenceEngine.c6wTarget ConfidenceEngine.c6wPeer).confidence =
        ConfidenceEngine.engineTargetLabel ConfidenceEngine.c6wStore
          ConfidenceEngine.c6wTarget) :=
  reportConfidence_peer_never_downgraded ConfidenceEngine.c6wStore
    ConfidenceEngine.c6wTarget ConfidenceEngine.c6wPeer
    (by decide) (by decide) (by decide)

/-- C5 counterexample: with the AI classification absent, a user-selected
issue type Traffic and three Traffic peers in the same locality and window,
the claim's procedure (fall back to the user-selected issue type) yields
HIGH, but the engine, which never falls back, writes LOW. -/
theorem reportConfidence_label_counterexample :
    ConfidenceEngine.engineTargetLabel ConfidenceEngine.c5Store ConfidenceEngine.c5Target =
      some "LOW" ∧
    ConfidenceEngine.claimReportLabel ConfidenceEngine.c5Store ConfidenceEngine.c5Target 1000 =
      "HIGH" ∧
    ConfidenceEngine.c5Target.created_at = some 1000 ∧
    (some "LOW" : Option String) ≠ some "HIGH" := by
  decide

/-- C5 witness: the amended label statement applied to the concrete C5
store, where the engine stops at LOW for an unclassified report. -/
theorem reportConfidence_label_amended_witness :
    ConfidenceEngine.engineTargetLabel ConfidenceEngine.c5Store ConfidenceEngine.c5Target =
      some (ConfidenceEngine.amendedReportLabel ConfidenceEngine.c5Store
        ConfidenceEngine.c5Target 1000) :=
  reportConfidence_label_amended ConfidenceEngine.c5Store ConfidenceEngine.c5Target 1000
    rfl (by decide) (by decide)

/-- C7 witness: the reverse transition VERIFIED → UNDER_REVIEW is rejected
with the enumerated allowed next states [ACTION_TAKEN]. -/
theorem statusWorkflow_linear_chain_witness :
    StatusWorkflow.validateAndTransition "VERIFIED" "UNDER_REVIEW" "reviewer" "" =
      Except.error ⟨"VERIFIED", "UNDER_REVIEW", ["ACTION_TAKEN"]⟩ :=
  statusWorkflow_linear_chain.2.1 StatusWorkflow.ReportStatus.VERIFIED
    StatusWorkflow.ReportStatus.UNDER_REVIEW (by decide)

/-- C8 (amended): for a report snapshot with a genuine confidence label, a
genuine workflow status, non-empty locality and city, and a creation
timestamp, the priority score is the claim's weighted sum — except that the
time-persistence bonus is pro-rated continuously,
`floor (5 × (age_hours − 24) / 24)` capped at 20, rather than +5 per full
day. -/
theorem priorityScore_amended (store : List PReport) (now : ℤ) (report : PReport)
    (hconf : report.confidence = "LOW" ∨ report.confidence = "MEDIUM" ∨
      report.confidence = "HIGH")
    (hstatus : report.status = "UNDER_REVIEW" ∨ report.status = "VERIFIED" ∨
      report.status = "ACTION_TAKEN" ∨ report.status = "CLOSED")
    (hloc : report.locality ≠ "") (hcity : report.city ≠ "") :
    PriorityScoring.calculatePriority store now report =
      PriorityScoring.amendedPriorityScore store now report := by
  have hfloor : ∀ c : ℤ, PriorityScoring.persistenceScore now c =
      PriorityScoring.amendedPersistenceScore now c := by
    intro c; rfl
  have hcw : PriorityScoring.confidenceWeight report.confidence =
      PriorityScoring.claimConfidenceWeight report.confidence := by
    rcases hconf with h | h | h <;> rw [h] <;> rfl
  have hsw : PriorityScoring.statusWeight report.status =
      PriorityScoring.claimStatusWeight report.status := by
    rcases hstatus with h | h | h | h <;> rw [h] <;> rfl
  simp only [PriorityScoring.calculatePriority, PriorityScoring.amendedPriorityScore,
    PriorityScoring.localityRepetitionScore, hfloor, hcw, hsw]
  rw [if_pos (And.intro hloc hcity)]
  have hmul : ∀ m : ℕ, min ((m : ℤ) * 5) 15 = min ((5 : ℤ) * (m : ℤ)) 15 := by
    intro m; rw [mul_comm]
  simp only [hmul]

/-- C8 counterexample: a 36-hour-old report. The code awards a pro-rated
persistence bonus `int(5 × 12/24) = 2` while the claim's "+5 per full day"
awards 0, so the totals differ (27 versus 25). -/
theorem priorityScore_counterexample :
    PriorityScoring.calculatePriority [] 129600 PriorityScoring.c8Report = 27 ∧
    PriorityScoring.claimPriorityScore [] 129600 PriorityScoring.c8Report = 25 ∧
    (27 : ℤ) ≠ 25 := by
  decide

/-- C8 witness: the amended formula applied to a 72-hour-old report, where
both sides award a +10 persistence bonus. -/
theorem priorityScore_amended_witness :
    PriorityScoring.calculatePriority [] 259200 PriorityScoring.c8Report =
      PriorityScoring.amendedPriorityScore [] 259200 PriorityScoring.c8Report :=
  priorityScore_amended [] 259200 PriorityScoring.c8Report
    (by decide) (by decide) (by decide) (by decide)

/-- C1 counterexample: two failures of the claim as stated.  (i) Overlap:
in the nine-report pool the pass materializes the clusters {A,B,C,D,E} and
{E,F,G,H,I} — marking members processed only stops them from seeding later
clusters, so E belongs to both and the materialized clusters of one pass
are not pairwise disjoint.  (ii) Threshold: five qualifying reports (same
type and normalized city, identical-to-metres-apart coordinates, a
four-minute span, eligible statuses, unlinked) whose exact centroid is
(0, 0) produce no issue at all, because the centroid guard rejects the
cluster. -/
theorem clusterPass_counterexample :
    (IssueAggregation.findEligibleClusters IssueAggregation.dZero
        IssueAggregation.c1OverlapPool).map (fun c => c.map PReport.id) =
      [["A", "B", "C", "D", "E"], ["E", "F", "G", "H", "I"]] ∧
    ("E" ∈ ["A", "B", "C", "D", "E"] ∧ "E" ∈ ["E", "F", "G", "H", "I"]) ∧
    IssueAggregation.c1ZeroCentroidPool.length = 5 ∧
    (∀ r ∈ IssueAggregation.c1ZeroCentroidPool, r.issue_type = "Water" ∧
      r.city = "pune" ∧ r.status = "UNDER_REVIEW" ∧ r.issue_id = "") ∧
    (IssueAggregation.attemptIssueAggregation IssueAggregation.dZero 1000
      ⟨IssueAggregation.c1ZeroCentroidPool, [], 0⟩).1.issues = [] := by
  decide

/-- C3: evaluation of the code at the failing trace.  An issue is formed
from a five-report cluster (`c2BaseState`, `report_count = 5`); three more
qualifying reports are then linked by the incremental path.  The recomputed
confidence stays at 0.2 / LOW (in twentieths: 4), because the growth
baseline the code reads — the stored `report_count` — was itself rewritten
to the current count by every pass; the claim's formula, with the formation
count 5 and current count 8, yields 0.4 / MEDIUM (8 twentieths). -/
theorem issueConfidence_growth_ignored :
    IssueAggregation.c2BaseState.issues.map Issue.report_count = [5] ∧
    IssueAggregation.c3FinalState.issues.map
      (fun i => (i.report_count, i.confidence_score, i.confidence)) = [(8, 4, "LOW")] ∧
    IssueConfidence.claimIssueScore 5 8 false false false = 8 ∧
    IssueConfidence.scoreToConfidenceLabel 8 = "MEDIUM" ∧
    (4 : ℤ) ≠ 8 := by
  decide

/-- C2 counterexample: a still-unlinked report with valid coordinates
(latitude exactly 0.0), a non-empty issue type, normalized city pune,
eligible status, inside the 24-hour pool, while a matching ACTIVE issue
exists within range — yet the pass leaves it unlinked and the issue at
`report_count = 5`, because the incremental path's Python truthiness test
`not all([lat, lon, ...])` discards coordinate 0.0. -/
theorem incrementalLink_counterexample :
    IssueAggregation.c2Lat0Report.latitude = some (QV.ofInt 0) ∧
    IssueAggregation.c2Lat0Report.longitude = some (QV.ofInt 30) ∧
    IssueAggregation.c2Lat0Report.status = "UNDER_REVIEW" ∧
    IssueAggregation.c2Lat0Report.issue_id = "" ∧
    IssueAggregation.c2Lat0State.issues.map
      (fun i => (i.id, i.issue_type, i.city, i.status, i.report_count)) =
      [("issue-0", "Water", "pune", "ACTIVE", 5)] ∧
    ((IssueAggregation.attemptIssueAggregation IssueAggregation.dZero 600
        IssueAggregation.c2Lat0State).1.reports.filter
      (fun r => r.id = "Z")).map PReport.issue_id = [""] ∧
    (IssueAggregation.attemptIssueAggregation IssueAggregation.dZero 600
      IssueAggregation.c2Lat0State).1.issues.map Issue.report_count = [5] := by
  decide

/-- Helper: stable insertion produces a permutation. -/
theorem insertByTime_perm (x : PReport) (l : List PReport) :
    (IssueAggregation.insertByTime x l).Perm (x :: l) := by
  induction l with
  | nil => simp [IssueAggregation.insertByTime]
  | cons y ys ih =>
    unfold IssueAggregation.insertByTime
    by_cases h : IssueAggregation.timeKeyLE x y = true
    · rw [if_pos h]
    · rw [if_neg h]
      exact (List.Perm.cons y ih).trans (List.Perm.swap x y ys)

/-- Helper: the chronological sort is a permutation of its input. -/
theorem sortByTime_perm (l : List PReport) :
    (IssueAggregation.sortByTime l).Perm l := by
  induction l with
  | nil => rfl
  | cons x xs ih =>
    unfold IssueAggregation.sortByTime
    simp only [List.foldr_cons]
    exact (insertByTime_perm x _).trans (List.Perm.cons x ih)

/-- Helper: `normalize_city_name` never returns the empty string. -/
theorem normalizeCityName_ne_empty (s : String) : normalizeCityName s ≠ "" := by
  simp only [normalizeCityName]
  split_ifs <;> simp_all

/-- Helper: rewriting the city field with its own value is the identity. -/
theorem preport_city_eta (r : PReport) (h : normalizeCityName r.city = r.city) :
    ({ r with city := normalizeCityName r.city } : PReport) = r := by
  cases r
  simp_all

/-- Helper: `dedupFrom` is the identity on duplicate-free lists disjoint
from the seen set. -/
theorem dedupFrom_eq_self (l : List String) : ∀ seen : List String, l.Nodup →
    (∀ x ∈ l, x ∉ seen) → dedupFrom seen l = l := by
  induction l with
  | nil => intro seen _ _; rfl
  | cons x xs ih =>
    intro seen hnd hdisj
    unfold dedupFrom
    rw [if_neg (hdisj x (by simp))]
    have hxs : xs.Nodup := (List.nodup_cons.mp hnd).2
    have hx : x ∉ xs := (List.nodup_cons.mp hnd).1
    rw [ih (x :: seen) hxs ?_]
    intro y hy
    simp only [List.mem_cons]
    push_neg
    exact ⟨fun he => hx (he ▸ hy), fun hs => hdisj y (by simp [hy]) hs⟩

/-- Helper: `dedupKeepFirst` is the identity on duplicate-free lists. -/
theorem dedupKeepFirst_eq_self (l : List String) (h : l.Nodup) :
    dedupKeepFirst l = l :=
  dedupFrom_eq_self l [] h (by simp)

/-- Helper: appending an already-present element is removed by the dedup. -/
theorem dedupFrom_append_mem (l : List String) : ∀ (seen : List String) (x : String),
    (x ∈ seen ∨ x ∈ l) → dedupFrom seen (l ++ [x]) = dedupFrom seen l := by
  induction l with
  | nil =>
    intro seen x hx
    rcases hx with h | h
    · simp [dedupFrom, h]
    · simp at h
  | cons y ys ih =>
    intro seen x hx
    simp only [List.cons_append, dedupFrom, List.append_eq]
    by_cases hy : y ∈ seen
    · rw [if_pos hy, if_pos hy, ih seen x ?_]
      rcases hx with h | h
      · exact Or.inl h
      · rcases List.mem_cons.mp h with he | hm
        · exact Or.inl (he ▸ hy)
        · exact Or.inr hm
    · rw [if_neg hy, if_neg hy, ih (y :: seen) x ?_]
      rcases hx with h | h
      · exact Or.inl (by simp [h])
      · rcases List.mem_cons.mp h with he | hm
        · exact Or.inl (by simp [he])
        · exact Or.inr hm

/-- Helper: adding an already-linked id to a duplicate-free id set changes
nothing. -/
theorem dedupKeepFirst_append_mem (l : List String) (x : String) (hnd : l.Nodup)
    (hx : x ∈ l) : dedupKeepFirst (l ++ [x]) = l := by
  unfold dedupKeepFirst
  rw [dedupFrom_append_mem l [] x (Or.inr hx)]
  exact dedupFrom_eq_self l [] hnd (by simp)

/-- Helper: linking a report preserves the stored document ids. -/
theorem updateReportIssueId_map_id (rs : List PReport) (rid eid : String) :
    (IssueAggregation.updateReportIssueId rs rid eid).map PReport.id =
      rs.map PReport.id := by
  unfold IssueAggregation.updateReportIssueId
  rw [List.map_map]
  apply List.map_congr_left
  intro p _
  by_cases h : p.id = rid <;> simp [h]

/-- Helper: linking any number of reports preserves the stored ids. -/
theorem foldl_update_map_id (ids : List String) : ∀ (rs : List PReport) (eid : String),
    ((ids.foldl (fun rs rid => IssueAggregation.updateReportIssueId rs rid eid)
      rs).map PReport.id) = rs.map PReport.id := by
  induction ids with
  | nil => intro rs eid; rfl
  | cons i is ih =>
    intro rs eid
    simp only [List.foldl_cons]
    rw [ih, updateReportIssueId_map_id]

/-- Helper: a stored id can be fetched. -/
theorem lookupReport_isSome (rs : List PReport) (rid : String)
    (h : rid ∈ rs.map PReport.id) :
    (IssueAggregation.lookupReport rs rid).isSome := by
  rcases List.mem_map.mp h with ⟨p, hp, hpe⟩
  unfold IssueAggregation.lookupReport
  rw [List.find?_isSome]
  exact ⟨p, hp, by simp [hpe]⟩

/-- Helper: fetching stored ids returns one report per id. -/
theorem fetchReports_length (rs : List PReport) : ∀ ids : List String,
    (∀ i ∈ ids, i ∈ rs.map PReport.id) →
    (IssueAggregation.fetchReports rs ids).length = ids.length := by
  intro ids
  induction ids with
  | nil => intro _; rfl
  | cons i is ih =>
    intro h
    have hi := lookupReport_isSome rs i (h i (by simp))
    rcases ho : IssueAggregation.lookupReport rs i with _ | p
    · rw [ho] at hi; simp at hi
    · have hrec := ih (fun j hj => h j (by simp [hj]))
      unfold IssueAggregation.fetchReports at hrec ⊢
      simp only [List.filterMap_cons, ho]
      simp [hrec]

/-- Helper: the pool filter keeps an eligible, already-normalized report
unchanged. -/
theorem poolFilter_eq_some (now : ℤ) (p : PReport)
    (hstat : p.status ∈ IssueAggregation.VALID_STATUSES)
    (hlat : p.latitude.isSome) (hlon : p.longitude.isSome)
    (htype : p.issue_type ≠ "")
    (hcity : normalizeCityName p.city = p.city) (hcityU : p.city ≠ "UNKNOWN")
    (htime : IssueAggregation.timeInWindow now p = true) :
    IssueAggregation.poolFilter now p = some p := by
  obtain ⟨a, ha⟩ := Option.isSome_iff_exists.mp hlat
  obtain ⟨b, hb⟩ := Option.isSome_iff_exists.mp hlon
  obtain ⟨t, hct, htw⟩ : ∃ t, p.created_at = some t ∧ now - 86400 ≤ t := by
    revert htime
    simp only [IssueAggregation.timeInWindow]
    rcases p.created_at with _ | t
    · intro h; simp at h
    · intro h
      exact ⟨t, rfl, by simpa using h⟩
  unfold IssueAggregation.poolFilter
  rw [if_neg (not_not_intro hstat)]
  rw [if_neg (by simp [ha, hb])]
  rw [if_neg ?hc]
  case hc =>
    push_neg
    exact ⟨htype, normalizeCityName_ne_empty _, by rw [hcity]; exact hcityU⟩
  simp only [hct]
  rw [if_neg (show ¬ t < now - 86400 by omega)]
  rw [← hct]
  rw [preport_city_eta p hcity]

/-- Helper: the pool of an eligible, normalized store is the store itself. -/
theorem buildPool_eq_self (now : ℤ) (reports : List PReport)
    (hstat : ∀ r ∈ reports, r.status ∈ IssueAggregation.VALID_STATUSES)
    (hlat : ∀ r ∈ reports, r.latitude.isSome)
    (hlon : ∀ r ∈ reports, r.longitude.isSome)
    (htype : ∀ r ∈ reports, r.issue_type ≠ "")
    (hcity : ∀ r ∈ reports, normalizeCityName r.city = r.city)
    (hcityU : ∀ r ∈ reports, r.city ≠ "UNKNOWN")
    (htime : ∀ r ∈ reports, IssueAggregation.timeInWindow now r = true) :
    IssueAggregation.buildPool now reports = reports := by
  unfold IssueAggregation.buildPool
  induction reports with
  | nil => rfl
  | cons p l ih =>
    rw [List.filterMap_cons]
    rw [poolFilter_eq_some now p (hstat p (by simp)) (hlat p (by simp))
      (hlon p (by simp)) (htype p (by simp)) (hcity p (by simp))
      (hcityU p (by simp)) (htime p (by simp))]
    rw [ih (fun r hr => hstat r (by simp [hr])) (fun r hr => hlat r (by simp [hr]))
      (fun r hr => hlon r (by simp [hr])) (fun r hr => htype r (by simp [hr]))
      (fun r hr => hcity r (by simp [hr])) (fun r hr => hcityU r (by simp [hr]))
      (fun r hr => htime r (by simp [hr]))]

/-- Helper: seeds whose id is already processed (or empty) leave the seed
loop's accumulator unchanged. -/
theorem eligibleClusters_foldl_skip (d : IssueAggregation.Dist) (sorted : List PReport) :
    ∀ (l : List PReport) (acc : List (List PReport) × List String),
      (∀ r ∈ l, r.id = "" ∨ r.id ∈ acc.2) →
      l.foldl (IssueAggregation.eligibleClustersStep d sorted) acc = acc := by
  intro l
  induction l with
  | nil => intro acc _; rfl
  | cons x xs ih =>
    intro acc h
    rw [List.foldl_cons]
    have hstep : IssueAggregation.eligibleClustersStep d sorted acc x = acc := by
      unfold IssueAggregation.eligibleClustersStep
      rw [if_pos (h x (by simp))]
    rw [hstep]
    exact ih acc (fun r hr => h r (by simp [hr]))

/-- Helper: when every report is within range and window of the reference,
the candidate cluster is the whole list. -/
theorem clusterReports_all (d : IssueAggregation.Dist) (S : List PReport)
    (refLat refLon : QV) (refT : ℤ)
    (h : ∀ r ∈ S, ∃ la lo t, r.latitude = some la ∧ r.longitude = some lo ∧
      r.created_at = some t ∧ d refLat refLon la lo ≤ IssueAggregation.PROXIMITY_METERS ∧
      (t - refT).natAbs ≤ 7200) :
    IssueAggregation.clusterReports d S refLat refLon refT = S := by
  unfold IssueAggregation.clusterReports
  apply List.filter_eq_self.mpr
  intro r hr
  obtain ⟨la, lo, t, hla, hlo, ht, hd2, htm⟩ := h r hr
  simp only [hla, hlo, ht]
  simp [hd2, htm]

/-- Helper: a pool of five mutually close, co-temporal, same-type,
same-normalized-city, eligible, unlinked reports yields exactly one
candidate cluster — the whole (chronologically sorted) pool. -/
theorem findEligibleClusters_all (d : IssueAggregation.Dist) (L : List PReport)
    (τ c : String)
    (hlen : L.length = 5)
    (hidne : ∀ r ∈ L, r.id ≠ "")
    (htype : ∀ r ∈ L, r.issue_type = τ)
    (hcity : ∀ r ∈ L, r.city = c)
    (hstat : ∀ r ∈ L, r.status ∈ IssueAggregation.VALID_STATUSES)
    (hunl : ∀ r ∈ L, r.issue_id = "")
    (hlat : ∀ r ∈ L, r.latitude.isSome)
    (hlon : ∀ r ∈ L, r.longitude.isSome)
    (htime : ∀ r ∈ L, r.created_at.isSome)
    (hprox : ∀ r ∈ L, ∀ q ∈ L, IssueAggregation.proxOK d r q = true)
    (hspan : ∀ r ∈ L, ∀ q ∈ L, IssueAggregation.timeOK r q = true) :
    IssueAggregation.findEligibleClusters d L = [IssueAggregation.sortByTime L] := by
  have hperm := sortByTime_perm L
  have hmemS : ∀ r ∈ IssueAggregation.sortByTime L, r ∈ L := fun r hr =>
    hperm.mem_iff.mp hr
  have hlenS : (IssueAggregation.sortByTime L).length = 5 := by
    rw [hperm.length_eq, hlen]
  obtain ⟨s0, rest, hcons⟩ : ∃ s0 rest, IssueAggregation.sortByTime L = s0 :: rest := by
    rcases hS : IssueAggregation.sortByTime L with _ | ⟨s0, rest⟩
    · rw [hS] at hlenS; simp at hlenS
    · exact ⟨s0, rest, rfl⟩
  have hs0 : s0 ∈ L := hmemS s0 (by rw [hcons]; simp)
  obtain ⟨lat0, hla0⟩ := Option.isSome_iff_exists.mp (hlat s0 hs0)
  obtain ⟨lon0, hlo0⟩ := Option.isSome_iff_exists.mp (hlon s0 hs0)
  obtain ⟨t0, ht0⟩ := Option.isSome_iff_exists.mp (htime s0 hs0)
  have hclusterAll : IssueAggregation.clusterReports d (IssueAggregation.sortByTime L)
      lat0 lon0 t0 = IssueAggregation.sortByTime L := by
    apply clusterReports_all
    intro r hr
    have hrL := hmemS r hr
    obtain ⟨la, hla⟩ := Option.isSome_iff_exists.mp (hlat r hrL)
    obtain ⟨lo, hlo⟩ := Option.isSome_iff_exists.mp (hlon r hrL)
    obtain ⟨t, ht⟩ := Option.isSome_iff_exists.mp (htime r hrL)
    refine ⟨la, lo, t, hla, hlo, ht, ?_, ?_⟩
    · have := hprox s0 hs0 r hrL
      simp only [IssueAggregation.proxOK, hla0, hlo0, hla, hlo,
        decide_eq_true_eq] at this
      exact this
    · have := hspan r hrL s0 hs0
      simp only [IssueAggregation.timeOK, ht, ht0, decide_eq_true_eq] at this
      exact this
  have hnarrow : (IssueAggregation.sortByTime L).filter (fun r =>
      r.issue_type = s0.issue_type ∧
        normalizeCityName r.city = normalizeCityName s0.city ∧
        r.status ∈ IssueAggregation.VALID_STATUSES ∧ r.issue_id = "") =
      IssueAggregation.sortByTime L := by
    apply List.filter_eq_self.mpr
    intro r hr
    have hrL := hmemS r hr
    simp only [decide_eq_true_eq]
    refine ⟨?_, ?_, hstat r hrL, hunl r hrL⟩
    · rw [htype r hrL, htype s0 hs0]
    · rw [hcity r hrL, hcity s0 hs0]
  have hids : ((IssueAggregation.sortByTime L).map PReport.id).filter
      (fun i => i ≠ "") = (IssueAggregation.sortByTime L).map PReport.id := by
    apply List.filter_eq_self.mpr
    intro i hi
    rcases List.mem_map.mp hi with ⟨r, hr, hre⟩
    simp [← hre, hidne r (hmemS r hr)]
  have hstep1 : IssueAggregation.eligibleClustersStep d (IssueAggregation.sortByTime L)
      ([], []) s0 = ([IssueAggregation.sortByTime L],
        (IssueAggregation.sortByTime L).map PReport.id) := by
    unfold IssueAggregation.eligibleClustersStep
    rw [if_neg (by simp [hidne s0 hs0])]
    rw [if_neg (by simp [hunl s0 hs0])]
    rw [if_neg (not_not_intro (hstat s0 hs0))]
    simp only [hla0, hlo0, ht0]
    rw [hclusterAll, hnarrow]
    rw [if_pos (by rw [hlenS]; decide)]
    rw [hids]
    simp
  rw [hcons] at hstep1
  simp only [IssueAggregation.findEligibleClusters]
  rw [hcons]
  rw [List.foldl_cons, hstep1]
  rw [eligibleClusters_foldl_skip d (s0 :: rest) rest
    ([s0 :: rest], (s0 :: rest).map PReport.id) ?_]
  intro r hr
  exact Or.inr (List.mem_map.mpr ⟨r, by simp [hr], rfl⟩)

/-- Helper: updating the only stored issue applies the update to it. -/
theorem updateIssue_singleton (I : Issue) (f : Issue → Issue) :
    IssueAggregation.updateIssue [I] I.id f = [f I] := by
  simp [IssueAggregation.updateIssue]

/-- Helper: shape of a confidence recalculation over a single-issue store:
the issue keeps its identity, status, classification and report-id list,
its `report_count` becomes the number of fetched linked reports, and the
report store is untouched. -/
theorem recalcIssueConfidence_singleton (now : ℤ) (st : AggState) (I : Issue)
    (hsingle : st.issues = [I]) (hne : I.report_ids ≠ []) :
    ∃ J : Issue, (IssueConfidence.recalcIssueConfidence now st I.id).issues = [J] ∧
      J.id = I.id ∧ J.status = I.status ∧ J.issue_type = I.issue_type ∧
      J.city = I.city ∧ J.report_ids = I.report_ids ∧
      J.report_count = (IssueAggregation.fetchReports st.reports I.report_ids).length ∧
      (IssueConfidence.recalcIssueConfidence now st I.id).reports = st.reports := by
  have hlook : IssueAggregation.lookupIssue st.issues I.id = some I := by
    rw [hsingle]; simp [IssueAggregation.lookupIssue]
  simp only [IssueConfidence.recalcIssueConfidence, hlook]
  rw [if_neg hne]
  rw [hsingle, updateIssue_singleton]
  exact ⟨_, rfl, rfl, rfl, rfl, rfl, rfl, rfl, rfl⟩

/-- Helper: a match among the stored issues is one of the stored issues. -/
theorem findExistingIssue_mem (d : IssueAggregation.Dist) (issues : List Issue)
    (issueType city : String) (la lo : QV) (eid : String)
    (h : IssueAggregation.findExistingIssue d issues issueType city la lo = some eid) :
    ∃ i ∈ issues, i.id = eid := by
  unfold IssueAggregation.findExistingIssue at h
  rcases ho : (issues.filter (fun i => i.city = normalizeCityName city ∧
      i.issue_type = issueType)).find? (fun i =>
        decide (i.status = "ACTIVE") &&
          (match i.latitude, i.longitude with
            | some ilat, some ilon =>
              decide (d la lo ilat ilon ≤ IssueAggregation.PROXIMITY_METERS)
            | _, _ => false)) with _ | i
  · rw [ho] at h; simp at h
  · rw [ho] at h
    simp at h
    have hmem := List.mem_of_find?_eq_some ho
    exact ⟨i, List.mem_of_mem_filter hmem, h⟩

/-- Helper: looking up an id not touched by a linking update is unchanged. -/
theorem lookupReport_update_ne (rs : List PReport) (rid eid i : String)
    (h : i ≠ rid) :
    IssueAggregation.lookupReport (IssueAggregation.updateReportIssueId rs rid eid) i =
      IssueAggregation.lookupReport rs i := by
  induction rs with
  | nil => rfl
  | cons p l ih =>
    simp only [IssueAggregation.updateReportIssueId, List.map_cons] at ih ⊢
    simp only [IssueAggregation.lookupReport] at ih ⊢
    by_cases hp : p.id = rid
    · have hpi : p.id ≠ i := fun he => h (he.symm.trans hp)
      simp only [if_pos hp]
      rw [List.find?_cons_of_neg _ (by simp [hpi]), List.find?_cons_of_neg _ (by simp [hpi])]
      exact ih
    · simp only [if_neg hp]
      by_cases hpi : p.id = i
      · rw [List.find?_cons_of_pos _ (by simp [hpi]), List.find?_cons_of_pos _ (by simp [hpi])]
      · rw [List.find?_cons_of_neg _ (by simp [hpi]), List.find?_cons_of_neg _ (by simp [hpi])]
        exact ih

/-- Helper: the state reached by materializing one cluster is the state of
the underlying create-or-update call. -/
theorem materializeStep_fst (d : IssueAggregation.Dist) (now : ℤ)
    (acc : AggState × List String) (cluster : List PReport) :
    (IssueAggregation.materializeStep d now acc cluster).1 =
      (IssueAggregation.createOrUpdateIssueFromCluster d now acc.1 cluster).1 := by
  simp only [IssueAggregation.materializeStep]
  rcases h : (IssueAggregation.createOrUpdateIssueFromCluster d now acc.1 cluster).2
    with _ | iid <;> simp [h]

/-- Helper: the state reached by one incremental-join attempt is the state
of the underlying link step. -/
theorem incrementalFoldStep_fst (d : IssueAggregation.Dist) (now : ℤ)
    (acc : AggState × List String) (r : PReport) :
    (IssueAggregation.incrementalFoldStep d now acc r).1 =
      (IssueAggregation.incrementalLinkStep d now acc.1 r).1 := by
  simp only [IssueAggregation.incrementalFoldStep]
  rcases h : (IssueAggregation.incrementalLinkStep d now acc.1 r).2
    with _ | iid <;> simp [h]

/-- Helper: materializing a full five-report cluster over an empty issue
store creates exactly one issue whose member ids are the cluster's ids and
whose count is resynced to the number of fetched members. -/
theorem createOrUpdate_fresh (d : IssueAggregation.Dist) (now : ℤ) (st : AggState)
    (S : List PReport) (c0 : PReport) (rest : List PReport) (τ c : String)
    (hScons : S = c0 :: rest)
    (hlenS : S.length = 5)
    (hidne : ∀ r ∈ S, r.id ≠ "")
    (hτ : τ ≠ "")
    (htype : ∀ r ∈ S, r.issue_type = τ)
    (hcity : ∀ r ∈ S, r.city = c)
    (hcnorm : normalizeCityName c = c)
    (hcU : c ≠ "UNKNOWN")
    (hiss : st.issues = [])
    (hsub : ∀ i ∈ S.map PReport.id, i ∈ st.reports.map PReport.id)
    (hcent : ((IssueAggregation.calcCentroid S).1.isZero &&
      (IssueAggregation.calcCentroid S).2.isZero) = false) :
    AggInv (S.map PReport.id) (st.reports.map PReport.id)
      (IssueAggregation.createOrUpdateIssueFromCluster d now st S).1 := by
  subst hScons
  have hne : (c0 :: rest).map PReport.id ≠ [] := by simp
  have key : ∀ (st2 : AggState) (iid : String),
      (∃ I : Issue, st2.issues = [I] ∧ I.id = iid ∧
        I.report_ids = (c0 :: rest).map PReport.id) →
      st2.reports.map PReport.id = st.reports.map PReport.id →
      AggInv ((c0 :: rest).map PReport.id) (st.reports.map PReport.id)
        (IssueConfidence.recalcIssueConfidence now st2 iid) := by
    intro st2 iid hex hrs2
    obtain ⟨I, hI1, hI2, hI3⟩ := hex
    obtain ⟨J, hj1, hjid, hjstat, hjtype, hjcity, hjids, hjcount, hjrep⟩ :=
      recalcIssueConfidence_singleton now st2 I hI1 (by rw [hI3]; exact hne)
    rw [← hI2]
    refine ⟨J, hj1, hjids.trans hI3, ?_, by rw [hjrep]; exact hrs2⟩
    rw [hjcount, hI3]
    exact fetchReports_length st2.reports ((c0 :: rest).map PReport.id)
      (fun i hi => by rw [hrs2]; exact hsub i hi)
  have hc0 : c0 ∈ c0 :: rest := by simp
  have hc0τ : c0.issue_type = τ := htype c0 hc0
  have hc0c : c0.city = c := hcity c0 hc0
  have hcne : c ≠ "" := by rw [← hcnorm]; exact normalizeCityName_ne_empty c
  have hfilter : (((c0 :: rest).map PReport.id).filter (fun i => i ≠ "")) =
      (c0 :: rest).map PReport.id := by
    apply List.filter_eq_self.mpr
    intro i hi
    rcases List.mem_map.mp hi with ⟨r, hr, hre⟩
    simp [← hre, hidne r hr]
  simp only [IssueAggregation.createOrUpdateIssueFromCluster]
  rw [if_neg (by rw [hlenS]; decide)]
  rw [hc0τ, hc0c, hcnorm]
  rw [if_neg (by push_neg; exact ⟨hτ, hcne, hcU⟩)]
  rw [if_neg (by simp [hcent])]
  rw [hiss]
  have hfe : ∀ la lo : QV, IssueAggregation.findExistingIssue d [] τ c la lo = none :=
    fun _ _ => rfl
  simp only [hfe]
  rw [hfilter]
  simp only [IssueAggregation.createNewIssueFromCluster]
  simp only [hiss]
  apply key
  · exact ⟨_, rfl, rfl, rfl⟩
  · exact foldl_update_map_id _ _ _

/-- Helper: one incremental-join attempt on a report whose id is already a
member of the single stored issue preserves the issue's membership, its
count and the stored report ids. -/
theorem incrementalLinkStep_keep (d : IssueAggregation.Dist) (now : ℤ)
    (idsL rsIds : List String) (hnd : idsL.Nodup)
    (hsub : ∀ i ∈ idsL, i ∈ rsIds)
    (st : AggState) (r : PReport) (hr : r.id ∈ idsL)
    (hInv : AggInv idsL rsIds st) :
    AggInv idsL rsIds (IssueAggregation.incrementalLinkStep d now st r).1 := by
  obtain ⟨J, hJ, hids, hcount, hrs⟩ := hInv
  have hne : idsL ≠ [] := List.ne_nil_of_mem hr
  rcases hla : r.latitude with _ | lat <;> rcases hlo : r.longitude with _ | lon <;>
    simp only [IssueAggregation.incrementalLinkStep, hla, hlo] <;> split_ifs with h1 <;>
    try exact ⟨J, hJ, hids, hcount, hrs⟩
  rcases hfe : IssueAggregation.findExistingIssue d st.issues r.issue_type
      (normalizeCityName r.city) lat lon with _ | eid
  · simp only [hfe]
    exact ⟨J, hJ, hids, hcount, hrs⟩
  · simp only [hfe]
    obtain ⟨i, hiMem, hiId⟩ := findExistingIssue_mem d st.issues _ _ _ _ _ hfe
    rw [hJ] at hiMem
    have hiJ : i = J := List.mem_singleton.mp hiMem
    have heid : J.id = eid := by rw [← hiJ]; exact hiId
    have hlook : IssueAggregation.lookupIssue st.issues eid = some J := by
      rw [hJ]
      simp [IssueAggregation.lookupIssue, heid]
    simp only [hlook]
    rw [hids]
    have hdedup : dedupKeepFirst (idsL ++ [r.id]) = idsL := by
      unfold dedupKeepFirst
      rw [dedupFrom_append_mem idsL [] r.id (Or.inr hr)]
      exact dedupFrom_eq_self idsL [] hnd (fun x _ => by simp)
    rw [hdedup]
    rw [← heid]
    have hrs1J : (IssueAggregation.updateReportIssueId st.reports r.id J.id).map
        PReport.id = rsIds := by
      rw [updateReportIssueId_map_id]; exact hrs
    rw [hJ, updateIssue_singleton]
    split_ifs with hc
    · exact ⟨J, rfl, hids, hcount, hrs1J⟩
    · have key2 : ∀ (st2 : AggState) (I : Issue), st2.issues = [I] → I.id = J.id →
          I.report_ids = idsL → st2.reports.map PReport.id = rsIds →
          AggInv idsL rsIds (IssueConfidence.recalcIssueConfidence now st2 J.id) := by
        intro st2 I h1 h2 h3 h4
        obtain ⟨K, hk1, hkid, hkstat, hktype, hkcity, hkids, hkcount, hkrep⟩ :=
          recalcIssueConfidence_singleton now st2 I h1 (by rw [h3]; exact hne)
        rw [← h2]
        refine ⟨K, hk1, hkids.trans h3, ?_, by rw [hkrep]; exact h4⟩
        rw [hkcount, h3]
        exact fetchReports_length st2.reports idsL
          (fun i hi => by rw [h4]; exact hsub i hi)
      apply key2
      · rfl
      · rfl
      · rfl
      · exact hrs1J

/-- Helper: the incremental-join loop preserves the single-issue invariant
when every attempted report is already a member of the stored issue. -/
theorem incrementalFold_keep (d : IssueAggregation.Dist) (now : ℤ)
    (idsL rsIds : List String) (hnd : idsL.Nodup)
    (hsub : ∀ i ∈ idsL, i ∈ rsIds) :
    ∀ (l : List PReport) (acc : AggState × List String),
      (∀ r ∈ l, r.id ∈ idsL) → AggInv idsL rsIds acc.1 →
      AggInv idsL rsIds (l.foldl (IssueAggregation.incrementalFoldStep d now) acc).1 := by
  intro l
  induction l with
  | nil => intro acc _ h; exact h
  | cons r rest ih =>
    intro acc hmem hInv
    rw [List.foldl_cons]
    apply ih
    · intro q hq; exact hmem q (by simp [hq])
    · rw [incrementalFoldStep_fst]
      exact incrementalLinkStep_keep d now idsL rsIds hnd hsub acc.1 r
        (hmem r (by simp)) hInv

/-- C1 (amended): when the 24-hour pool consists of exactly five unlinked,
eligible reports of one non-empty issue type and one usable normalized
city, pairwise within the proximity radius and the two-hour window, with
distinct non-empty ids, timestamps inside the trailing day, and a cluster
centroid other than (0, 0), one aggregation pass over an empty issue store
produces exactly one issue, its `report_count` is 5 and its member-id set
is exactly the five reports.  (The claim's disjointness half — members of a
materialized cluster are marked processed and appear in no other cluster of
the pass — fails in general: only cluster seeds are checked against the
processed set, so a report can be absorbed into two clusters of the same
pass.) -/
theorem clusterPass_amended (d : IssueAggregation.Dist) (now : ℤ)
    (L : List PReport) (τ c : String)
    (hlen : L.length = 5)
    (hids : (L.map PReport.id).Nodup)
    (hidne : ∀ r ∈ L, r.id ≠ "")
    (hτ : τ ≠ "")
    (htype : ∀ r ∈ L, r.issue_type = τ)
    (hcity : ∀ r ∈ L, r.city = c)
    (hcnorm : normalizeCityName c = c)
    (hcU : c ≠ "UNKNOWN")
    (hstat : ∀ r ∈ L, r.status ∈ IssueAggregation.VALID_STATUSES)
    (hunl : ∀ r ∈ L, r.issue_id = "")
    (hlat : ∀ r ∈ L, r.latitude.isSome)
    (hlon : ∀ r ∈ L, r.longitude.isSome)
    (htw : ∀ r ∈ L, IssueAggregation.timeInWindow now r = true)
    (hprox : ∀ r ∈ L, ∀ q ∈ L, IssueAggregation.proxOK d r q = true)
    (hspan : ∀ r ∈ L, ∀ q ∈ L, IssueAggregation.timeOK r q = true)
    (hcent : ((IssueAggregation.calcCentroid (IssueAggregation.sortByTime L)).1.isZero &&
      (IssueAggregation.calcCentroid (IssueAggregation.sortByTime L)).2.isZero) = false) :
    ∃ J : Issue,
      (IssueAggregation.attemptIssueAggregation d now ⟨L, [], 0⟩).1.issues = [J] ∧
      J.report_count = 5 ∧ J.report_ids.length = 5 ∧
      ∀ r ∈ L, r.id ∈ J.report_ids := by
  have hperm := sortByTime_perm L
  have hpermIds : ((IssueAggregation.sortByTime L).map PReport.id).Perm
      (L.map PReport.id) := hperm.map PReport.id
  have hlenS : (IssueAggregation.sortByTime L).length = 5 := by
    rw [hperm.length_eq]; exact hlen
  have htimeS : ∀ r ∈ L, r.created_at.isSome := by
    intro r hr
    have h := htw r hr
    unfold IssueAggregation.timeInWindow at h
    cases hct : r.created_at with
    | none => rw [hct] at h; simp at h
    | some t => simp [hct]
  have htype2 : ∀ r ∈ L, r.issue_type ≠ "" := fun r hrL => by
    rw [htype r hrL]; exact hτ
  have hcitynorm : ∀ r ∈ L, normalizeCityName r.city = r.city := fun r hrL => by
    rw [hcity r hrL]; exact hcnorm
  have hcityU : ∀ r ∈ L, r.city ≠ "UNKNOWN" := fun r hrL => by
    rw [hcity r hrL]; exact hcU
  obtain ⟨s0, rest, hcons⟩ : ∃ s0 rest, IssueAggregation.sortByTime L = s0 :: rest := by
    rcases hS : IssueAggregation.sortByTime L with _ | ⟨s0, rest⟩
    · rw [hS] at hlenS; simp at hlenS
    · exact ⟨s0, rest, rfl⟩
  have hmemS : ∀ r ∈ IssueAggregation.sortByTime L, r ∈ L := fun r hr =>
    hperm.mem_iff.mp hr
  have hndS : ((IssueAggregation.sortByTime L).map PReport.id).Nodup :=
    hpermIds.nodup_iff.mpr hids
  have hsubS : ∀ i ∈ (IssueAggregation.sortByTime L).map PReport.id,
      i ∈ L.map PReport.id := fun i hi => hpermIds.mem_iff.mp hi
  have hmemL : ∀ r ∈ L, r.id ∈ (IssueAggregation.sortByTime L).map PReport.id :=
    fun r hr => hpermIds.mem_iff.mpr (List.mem_map.mpr ⟨r, hr, rfl⟩)
  have hpr : ((⟨L, [], 0⟩ : AggState)).reports = L := rfl
  simp only [IssueAggregation.attemptIssueAggregation, hpr]
  rw [buildPool_eq_self now L hstat hlat hlon htype2 hcitynorm hcityU htw]
  rw [findEligibleClusters_all d L τ c hlen hidne htype hcity hstat hunl hlat hlon
    htimeS hprox hspan]
  rw [List.foldl_cons, List.foldl_nil]
  have hunl2 : L.filter (fun r => r.issue_id = "") = L :=
    List.filter_eq_self.mpr (fun r hr => by simp [hunl r hr])
  rw [hunl2]
  have hInv0 : AggInv ((IssueAggregation.sortByTime L).map PReport.id)
      (L.map PReport.id)
      ((IssueAggregation.materializeStep d now (⟨L, [], 0⟩, [])
        (IssueAggregation.sortByTime L)).1) := by
    rw [materializeStep_fst]
    exact createOrUpdate_fresh d now ⟨L, [], 0⟩ (IssueAggregation.sortByTime L) s0 rest
      τ c hcons hlenS (fun r hr => hidne r (hmemS r hr)) hτ
      (fun r hr => htype r (hmemS r hr)) (fun r hr => hcity r (hmemS r hr))
      hcnorm hcU rfl hsubS hcent
  obtain ⟨J, hJ1, hJ2, hJ3, hJ4⟩ := incrementalFold_keep d now
    ((IssueAggregation.sortByTime L).map PReport.id) (L.map PReport.id) hndS hsubS
    L (IssueAggregation.materializeStep d now (⟨L, [], 0⟩, [])
      (IssueAggregation.sortByTime L)) hmemL hInv0
  refine ⟨J, hJ1, ?_, ?_, ?_⟩
  · rw [hJ3, List.length_map]; exact hlenS
  · rw [hJ2, List.length_map]; exact hlenS
  · intro r hr
    rw [hJ2]
    exact hmemL r hr

/-- Witness for the amended C1 theorem: the concrete five-report pool at
identical coordinates is materialized into one issue of count 5 holding
all five report ids. -/
theorem clusterPass_amended_witness :
    ∃ J : Issue,
      (IssueAggregation.attemptIssueAggregation IssueAggregation.dZero 300
        ⟨IssueAggregation.c1FivePool, [], 0⟩).1.issues = [J] ∧
      J.report_count = 5 ∧ J.report_ids.length = 5 ∧
      ∀ r ∈ IssueAggregation.c1FivePool, r.id ∈ J.report_ids :=
  clusterPass_amended IssueAggregation.dZero 300 IssueAggregation.c1FivePool
    "Water" "pune" (by decide) (by decide) (by decide) (by decide) (by decide)
    (by decide) (by decide) (by decide) (by decide) (by decide) (by decide)
    (by decide) (by decide) (by decide) (by decide) (by decide)

/-- Helper: filtering with a stronger predicate keeps no more elements. -/
theorem length_filter_mono {α : Type} (p q : α → Bool) (h : ∀ a, p a = true → q a = true) :
    ∀ l : List α, (l.filter p).length ≤ (l.filter q).length := by
  intro l
  induction l with
  | nil => simp
  | cons a t ih =>
    by_cases hp : p a = true
    · rw [List.filter_cons_of_pos hp, List.filter_cons_of_pos (h a hp)]
      simpa using ih
    · rw [List.filter_cons_of_neg (by simpa using hp)]
      rcases hq : q a with _ | _
      · rw [List.filter_cons_of_neg (by simp [hq])]
        exact ih
      · rw [List.filter_cons_of_pos (by simp [hq])]
        exact ih.trans (by simp)

/-- Helper: a narrowed candidate cluster holds only unlinked pool members,
so it is no larger than the pool's unlinked part. -/
theorem cluster_unlinked_le (d : IssueAggregation.Dist) (sorted : List PReport)
    (lat lon : QV) (t : ℤ) (rep : PReport) :
    ((IssueAggregation.clusterReports d sorted lat lon t).filter (fun r =>
      r.issue_type = rep.issue_type ∧
        normalizeCityName r.city = normalizeCityName rep.city ∧
        r.status ∈ IssueAggregation.VALID_STATUSES ∧ r.issue_id = "")).length ≤
      (sorted.filter (fun p => p.issue_id = "")).length := by
  unfold IssueAggregation.clusterReports
  rw [List.filter_filter]
  apply length_filter_mono
  intro a ha
  simp only [Bool.and_eq_true, decide_eq_true_eq] at ha
  exact decide_eq_true ha.1.2.2.2

/-- Helper: when fewer than five pool reports are unlinked, no seed can
reach the cluster threshold and the seed loop leaves its accumulator
unchanged. -/
theorem eligibleClustersStep_few (d : IssueAggregation.Dist) (sorted : List PReport)
    (hfew : (sorted.filter (fun p => p.issue_id = "")).length <
      IssueAggregation.MIN_REPORTS_FOR_ISSUE)
    (acc : List (List PReport) × List String) (report : PReport) :
    IssueAggregation.eligibleClustersStep d sorted acc report = acc := by
  rcases hla : report.latitude with _ | lat <;>
    rcases hlo : report.longitude with _ | lon <;>
    rcases hct : report.created_at with _ | t <;>
    simp only [IssueAggregation.eligibleClustersStep, hla, hlo, hct] <;>
    split_ifs with h1 h2 h3 h4 <;> try rfl
  exact absurd h4 (by have hle := cluster_unlinked_le d sorted lat lon t report; omega)

/-- Helper: with fewer than five unlinked pool reports, the cluster phase
finds nothing. -/
theorem findEligibleClusters_few (d : IssueAggregation.Dist) (pool : List PReport)
    (hfew : (pool.filter (fun p => p.issue_id = "")).length <
      IssueAggregation.MIN_REPORTS_FOR_ISSUE) :
    IssueAggregation.findEligibleClusters d pool = [] := by
  have hfewS : ((IssueAggregation.sortByTime pool).filter
      (fun p => p.issue_id = "")).length < IssueAggregation.MIN_REPORTS_FOR_ISSUE := by
    have hp := (sortByTime_perm pool).filter (fun p => p.issue_id = "")
    rw [hp.length_eq]
    exact hfew
  simp only [IssueAggregation.findEligibleClusters]
  have hfold : ∀ (l : List PReport) (acc : List (List PReport) × List String),
      l.foldl (IssueAggregation.eligibleClustersStep d
        (IssueAggregation.sortByTime pool)) acc = acc := by
    intro l
    induction l with
    | nil => intro acc; rfl
    | cons x xs ih =>
      intro acc
      rw [List.foldl_cons, eligibleClustersStep_few d _ hfewS, ih]
  rw [hfold]

/-- Helper: the linking update rewrites the linked document's `issue_id`. -/
theorem updateReportIssueId_sets (rs : List PReport) (rid eid : String) :
    ∀ p ∈ IssueAggregation.updateReportIssueId rs rid eid,
      p.id = rid → p.issue_id = eid := by
  intro p hp hpid
  rcases List.mem_map.mp hp with ⟨p0, hp0, hpe⟩
  by_cases h : p0.id = rid
  · rw [← hpe]
    simp [h]
  · rw [← hpe] at hpid
    rw [if_neg h] at hpid
    exact absurd hpid h

/-- Helper: one successful incremental-join attempt appends the report's id
to the single stored issue, updates the count from the fetched member set,
and rewrites the report's `issue_id`. -/
theorem incrementalLink_success (d : IssueAggregation.Dist) (now : ℤ)
    (st : AggState) (I : Issue) (r : PReport) (lat lon : QV)
    (hJ : st.issues = [I])
    (hla : r.latitude = some lat) (hlo : r.longitude = some lon)
    (hlaz : lat.isZero = false) (hloz : lon.isZero = false)
    (hτ : r.issue_type ≠ "")
    (hcU : normalizeCityName r.city ≠ "UNKNOWN")
    (hfind : IssueAggregation.findExistingIssue d st.issues r.issue_type
      (normalizeCityName r.city) lat lon = some I.id)
    (hnd : I.report_ids.Nodup) (hfresh : r.id ∉ I.report_ids)
    (hsub : ∀ i ∈ I.report_ids ++ [r.id], i ∈ st.reports.map PReport.id)
    (hcent : ((IssueAggregation.calcCentroid (r :: IssueAggregation.fetchReports
        (IssueAggregation.updateReportIssueId st.reports r.id I.id)
        I.report_ids)).1.isZero &&
      (IssueAggregation.calcCentroid (r :: IssueAggregation.fetchReports
        (IssueAggregation.updateReportIssueId st.reports r.id I.id)
        I.report_ids)).2.isZero) = false) :
    ∃ K : Issue, (IssueAggregation.incrementalLinkStep d now st r).1.issues = [K] ∧
      K.id = I.id ∧ K.report_ids = I.report_ids ++ [r.id] ∧
      K.report_count = I.report_ids.length + 1 ∧
      (IssueAggregation.incrementalLinkStep d now st r).1.reports =
        IssueAggregation.updateReportIssueId st.reports r.id I.id := by
  simp only [IssueAggregation.incrementalLinkStep, hla, hlo]
  have hb : (IssueAggregation.truthyCoord (some lat) &&
      IssueAggregation.truthyCoord (some lon) &&
      decide (r.issue_type ≠ "") && decide (normalizeCityName r.city ≠ "")) = true := by
    simp [IssueAggregation.truthyCoord, hlaz, hloz, hτ, normalizeCityName_ne_empty r.city]
  rw [if_neg (not_or.mpr ⟨not_not_intro hb, hcU⟩)]
  simp only [hfind]
  have hlook : IssueAggregation.lookupIssue st.issues I.id = some I := by
    rw [hJ]
    simp [IssueAggregation.lookupIssue]
  simp only [hlook]
  have hdedup : dedupKeepFirst (I.report_ids ++ [r.id]) = I.report_ids ++ [r.id] := by
    apply dedupKeepFirst_eq_self
    rw [List.nodup_append]
    exact ⟨hnd, List.nodup_singleton r.id,
      fun a ha hmem => hfresh ((List.mem_singleton.mp hmem) ▸ ha)⟩
  rw [hdedup]
  have hfilter : (I.report_ids ++ [r.id]).filter (fun rid => rid ≠ r.id) =
      I.report_ids := by
    rw [List.filter_append]
    have h1 : I.report_ids.filter (fun rid => rid ≠ r.id) = I.report_ids :=
      List.filter_eq_self.mpr (fun a ha => by
        simp only [decide_eq_true_eq]
        exact fun he => hfresh (he ▸ ha))
    have h2 : ([r.id] : List String).filter (fun rid => rid ≠ r.id) = [] := by simp
    rw [h1, h2, List.append_nil]
  rw [hfilter]
  rw [if_neg (by simp [hcent])]
  rw [hJ, updateIssue_singleton]
  have key : ∀ (st2 : AggState) (I2 : Issue), st2.issues = [I2] → I2.id = I.id →
      I2.report_ids = I.report_ids ++ [r.id] →
      st2.reports = IssueAggregation.updateReportIssueId st.reports r.id I.id →
      ∃ K : Issue, (IssueConfidence.recalcIssueConfidence now st2 I.id).issues = [K] ∧
        K.id = I.id ∧ K.report_ids = I.report_ids ++ [r.id] ∧
        K.report_count = I.report_ids.length + 1 ∧
        (IssueConfidence.recalcIssueConfidence now st2 I.id).reports =
          IssueAggregation.updateReportIssueId st.reports r.id I.id := by
    intro st2 I2 h1 h2 h3 h4
    obtain ⟨K, hk1, hkid, hkstat, hktype, hkcity, hkids, hkcount, hkrep⟩ :=
      recalcIssueConfidence_singleton now st2 I2 h1 (by rw [h3]; simp)
    rw [h2] at hk1 hkrep
    refine ⟨K, hk1, hkid.trans h2, hkids.trans h3, ?_, by rw [hkrep, h4]⟩
    rw [hkcount, h3]
    have hlen : (IssueAggregation.fetchReports st2.reports
        (I.report_ids ++ [r.id])).length = (I.report_ids ++ [r.id]).length := by
      apply fetchReports_length
      intro i hi
      rw [h4, updateReportIssueId_map_id]
      exact hsub i hi
    rw [hlen]
    simp
  apply key
  · rfl
  · rfl
  · rfl
  · rfl

/-- C2 (amended): when the pool holds the stored issue's linked members
plus exactly one still-unlinked qualifying report — eligible status,
coordinates present and, as the code actually requires, both non-zero
(Python float truthiness), non-empty issue type, usable normalized city,
inside the 24-hour window — and the source's issue matcher finds the
stored ACTIVE issue for it, the aggregation pass links the report into
that issue: its id is appended to `report_ids`, `report_count` grows by
one, no second issue is created, and the report's document now carries the
issue's id.  (The claim as stated fails for a report with latitude or
longitude exactly 0.0, a valid coordinate that the code skips.) -/
theorem incrementalLink_amended (d : IssueAggregation.Dist) (now : ℤ)
    (st : AggState) (I : Issue) (r : PReport) (lat lon : QV)
    (hstat : ∀ p ∈ st.reports, p.status ∈ IssueAggregation.VALID_STATUSES)
    (hplat : ∀ p ∈ st.reports, p.latitude.isSome)
    (hplon : ∀ p ∈ st.reports, p.longitude.isSome)
    (hptype : ∀ p ∈ st.reports, p.issue_type ≠ "")
    (hpcity : ∀ p ∈ st.reports, normalizeCityName p.city = p.city)
    (hpcityU : ∀ p ∈ st.reports, p.city ≠ "UNKNOWN")
    (hptime : ∀ p ∈ st.reports, IssueAggregation.timeInWindow now p = true)
    (hone : st.reports.filter (fun p => p.issue_id = "") = [r])
    (hJ : st.issues = [I])
    (hIcount : I.report_count = I.report_ids.length)
    (hla : r.latitude = some lat) (hlo : r.longitude = some lon)
    (hlaz : lat.isZero = false) (hloz : lon.isZero = false)
    (hτ : r.issue_type ≠ "")
    (hcU : normalizeCityName r.city ≠ "UNKNOWN")
    (hfind : IssueAggregation.findExistingIssue d st.issues r.issue_type
      (normalizeCityName r.city) lat lon = some I.id)
    (hnd : I.report_ids.Nodup) (hfresh : r.id ∉ I.report_ids)
    (hsub : ∀ i ∈ I.report_ids ++ [r.id], i ∈ st.reports.map PReport.id)
    (hcent : ((IssueAggregation.calcCentroid (r :: IssueAggregation.fetchReports
        (IssueAggregation.updateReportIssueId st.reports r.id I.id)
        I.report_ids)).1.isZero &&
      (IssueAggregation.calcCentroid (r :: IssueAggregation.fetchReports
        (IssueAggregation.updateReportIssueId st.reports r.id I.id)
        I.report_ids)).2.isZero) = false) :
    ∃ K : Issue,
      (IssueAggregation.attemptIssueAggregation d now st).1.issues = [K] ∧
      K.id = I.id ∧ K.report_ids = I.report_ids ++ [r.id] ∧
      K.report_count = I.report_count + 1 ∧
      ∀ p ∈ (IssueAggregation.attemptIssueAggregation d now st).1.reports,
        p.id = r.id → p.issue_id = I.id := by
  simp only [IssueAggregation.attemptIssueAggregation]
  rw [buildPool_eq_self now st.reports hstat hplat hplon hptype hpcity hpcityU hptime]
  rw [findEligibleClusters_few d st.reports (by rw [hone, List.length_singleton]; decide)]
  rw [List.foldl_nil, hone, List.foldl_cons, List.foldl_nil]
  rw [incrementalFoldStep_fst]
  obtain ⟨K, hk1, hk2, hk3, hk4, hk5⟩ := incrementalLink_success d now st I r lat lon
    hJ hla hlo hlaz hloz hτ hcU hfind hnd hfresh hsub hcent
  refine ⟨K, hk1, hk2, hk3, ?_, ?_⟩
  · rw [hk4, hIcount]
  · intro p hp hpid
    rw [hk5] at hp
    exact updateReportIssueId_sets st.reports r.id I.id p hp hpid

/-- Witness for the amended C2 theorem: the sixth qualifying report F is
linked into the existing five-report issue, which reaches count 6. -/
theorem incrementalLink_amended_witness :
    ∃ K : Issue,
      (IssueAggregation.attemptIssueAggregation IssueAggregation.dZero 600
        IssueAggregation.c2SixthState).1.issues = [K] ∧
      K.id = IssueAggregation.c2Issue0.id ∧
      K.report_ids = IssueAggregation.c2Issue0.report_ids ++
        [IssueAggregation.c2SixthReport.id] ∧
      K.report_count = IssueAggregation.c2Issue0.report_count + 1 ∧
      ∀ p ∈ (IssueAggregation.attemptIssueAggregation IssueAggregation.dZero 600
          IssueAggregation.c2SixthState).1.reports,
        p.id = IssueAggregation.c2SixthReport.id →
          p.issue_id = IssueAggregation.c2Issue0.id :=
  incrementalLink_amended IssueAggregation.dZero 600 IssueAggregation.c2SixthState
    IssueAggregation.c2Issue0 IssueAggregation.c2SixthReport
    (QV.ofInt 20) (QV.ofInt 30)
    (by decide) (by decide) (by decide) (by decide) (by decide) (by decide)
    (by decide) (by decide) (by decide) (by decide) (by decide) (by decide)
    (by decide) (by decide) (by decide) (by decide) (by decide) (by decide)
    (by decide) (by decide) (by decide)

/-- Helper: the confidence score reads the issue only through its stored
count and creation time. -/
theorem calcConfidenceScore_congr (now : ℤ) (i1 i2 : Issue) (rs : List PReport)
    (hrc : i1.report_count = i2.report_count) (hca : i1.created_at = i2.created_at) :
    IssueConfidence.calcConfidenceScore now i1 rs =
      IssueConfidence.calcConfidenceScore now i2 rs := by
  unfold IssueConfidence.calcConfidenceScore
  rw [hrc, hca]

/-- Helper: rewriting confidence fields with their own values is the
identity on an issue. -/
theorem issue_update_eta (i : Issue) (c : String) (s : ℤ) (rn : String)
    (tl : List TEntry) (ua : ℤ) (rc : ℕ)
    (hc : c = i.confidence) (hs : s = i.confidence_score)
    (hrn : rn = i.confidence_reason) (htl : tl = i.confidence_timeline)
    (hua : ua = i.updated_at) (hrc : rc = i.report_count) :
    ({ i with
        confidence := c, confidence_score := s, confidence_reason := rn,
        confidence_timeline := tl, updated_at := ua, report_count := rc } : Issue) = i := by
  cases i
  simp_all

/-- Helper: rewriting the issue list with its own value is the identity on
a state. -/
theorem state_issues_eta (s : AggState) (X : List Issue) (h : X = s.issues) :
    ({ s with issues := X } : AggState) = s := by
  cases s
  simp_all

/-- Helper: closed form of one confidence recalculation over a single-issue
store, with the fetched reports, computed score, label and timeline
abstracted. -/
theorem recalc_formula (now : ℤ) (st : AggState) (I : Issue) (iid : String)
    (hiid : I.id = iid) (hJ : st.issues = [I]) (hne : I.report_ids ≠ [])
    (R : List PReport) (hR : R = IssueAggregation.fetchReports st.reports I.report_ids)
    (C : ℤ × String) (hC : C = IssueConfidence.calcConfidenceScore now I R)
    (L : String) (hL : L = IssueConfidence.scoreToConfidenceLabel C.1)
    (T : List TEntry)
    (hT : T = if C.1 ≠ I.confidence_score ∨ L ≠ I.confidence then
        I.confidence_timeline ++
          [⟨now, some I.confidence, some I.confidence_score, L, C.1, C.2⟩]
      else I.confidence_timeline) :
    IssueConfidence.recalcIssueConfidence now st iid =
      { st with
          issues := [{ I with
            confidence := L, confidence_score := C.1, confidence_reason := C.2,
            confidence_timeline := T, updated_at := now, report_count := R.length }] } := by
  subst hiid hR hC hL hT
  have hlook : IssueAggregation.lookupIssue st.issues I.id = some I := by
    rw [hJ]
    simp [IssueAggregation.lookupIssue]
  simp only [IssueConfidence.recalcIssueConfidence, hlook]
  rw [if_neg hne, hJ, updateIssue_singleton]

/-- C4 (amended): over a single-issue store whose stored `report_count`
already equals the number of fetched linked reports (the invariant any
recalculation establishes), recomputing the confidence twice with the
unchanged report set gives exactly the state of one recomputation — same
score, label and timeline; and one recomputation leaves the timeline
unchanged exactly when both the score and the label match the stored
values, otherwise it appends a single entry.  (Without the count
hypothesis the first half fails: the first run rewrites `report_count`,
the growth baseline, so a second run can compute a different score.) -/
theorem issueRecalc_amended (now : ℤ) (st : AggState) (I : Issue)
    (hJ : st.issues = [I]) (hne : I.report_ids ≠ [])
    (hsync : I.report_count =
      (IssueAggregation.fetchReports st.reports I.report_ids).length) :
    IssueConfidence.recalcIssueConfidence now
        (IssueConfidence.recalcIssueConfidence now st I.id) I.id =
      IssueConfidence.recalcIssueConfidence now st I.id ∧
    ∃ J : Issue,
      (IssueConfidence.recalcIssueConfidence now st I.id).issues = [J] ∧
      (J.confidence_timeline = I.confidence_timeline ↔
        ((IssueConfidence.calcConfidenceScore now I
            (IssueAggregation.fetchReports st.reports I.report_ids)).1 =
          I.confidence_score ∧
        IssueConfidence.scoreToConfidenceLabel
          (IssueConfidence.calcConfidenceScore now I
            (IssueAggregation.fetchReports st.reports I.report_ids)).1 =
          I.confidence)) ∧
      (J.confidence_timeline = I.confidence_timeline ∨
        ∃ e : TEntry, J.confidence_timeline = I.confidence_timeline ++ [e]) := by
  set R := IssueAggregation.fetchReports st.reports I.report_ids with hR
  set C := IssueConfidence.calcConfidenceScore now I R with hC
  set L := IssueConfidence.scoreToConfidenceLabel C.1 with hL
  set T := (if C.1 ≠ I.confidence_score ∨ L ≠ I.confidence then
      I.confidence_timeline ++
        [⟨now, some I.confidence, some I.confidence_score, L, C.1, C.2⟩]
    else I.confidence_timeline : List TEntry) with hT
  have h1 := recalc_formula now st I I.id rfl hJ hne R hR C hC L hL T hT
  constructor
  · rw [h1]
    generalize hg : ({ I with
      confidence := L, confidence_score := C.1, confidence_reason := C.2,
      confidence_timeline := T, updated_at := now, report_count := R.length } : Issue) = G
    have hGid : G.id = I.id := by rw [← hg]
    have hGids : G.report_ids = I.report_ids := by rw [← hg]
    have hGrc : G.report_count = R.length := by rw [← hg]
    have hGca : G.created_at = I.created_at := by rw [← hg]
    have hGcs : G.confidence_score = C.1 := by rw [← hg]
    have hGcf : G.confidence = L := by rw [← hg]
    have hGcr : G.confidence_reason = C.2 := by rw [← hg]
    have hGtl : G.confidence_timeline = T := by rw [← hg]
    have hGua : G.updated_at = now := by rw [← hg]
    have hne2 : G.report_ids ≠ [] := by rw [hGids]; exact hne
    have hC2 : C = IssueConfidence.calcConfidenceScore now G R := by
      rw [hC]
      exact (calcConfidenceScore_congr now G I R (by rw [hGrc]; exact hsync.symm)
        hGca).symm
    have hT2 : T = if C.1 ≠ G.confidence_score ∨ L ≠ G.confidence then
        G.confidence_timeline ++
          [⟨now, some G.confidence, some G.confidence_score, L, C.1, C.2⟩]
      else G.confidence_timeline := by
      rw [if_neg (not_or.mpr ⟨not_not_intro hGcs.symm, not_not_intro hGcf.symm⟩), hGtl]
    have hR2 : R = IssueAggregation.fetchReports
        ({ st with issues := [G] } : AggState).reports G.report_ids := by
      rw [hGids]
    have h2 := recalc_formula now ({ st with issues := [G] } : AggState) G I.id hGid
      rfl hne2 R hR2 C hC2 L hL T hT2
    rw [h2]
    rw [issue_update_eta G L C.1 C.2 T now R.length hGcf.symm hGcs.symm hGcr.symm
      hGtl.symm hGua.symm hGrc.symm]
  · have hissues : (IssueConfidence.recalcIssueConfidence now st I.id).issues =
        [{ I with
          confidence := L, confidence_score := C.1, confidence_reason := C.2,
          confidence_timeline := T, updated_at := now, report_count := R.length }] := by
      rw [h1]
    refine ⟨_, hissues, ?_, ?_⟩
    · show T = I.confidence_timeline ↔ C.1 = I.confidence_score ∧ L = I.confidence
      by_cases hch : C.1 ≠ I.confidence_score ∨ L ≠ I.confidence
      · rw [hT, if_pos hch]
        constructor
        · intro habs
          have hlen := congrArg List.length habs
          simp at hlen
        · intro hx
          rcases hch with h | h
          · exact absurd hx.1 h
          · exact absurd hx.2 h
      · rw [hT, if_neg hch]
        push_neg at hch
        exact iff_of_true rfl hch
    · show T = I.confidence_timeline ∨ ∃ e : TEntry, T = I.confidence_timeline ++ [e]
      rw [hT]
      split_ifs with h
      · exact Or.inr ⟨_, rfl⟩
      · exact Or.inl rfl

/-- C4 counterexample: on an issue whose stored count (5) lags its eight
linked reports, the first recomputation yields 0.4/MEDIUM, but a second
recomputation on the unchanged report set yields 0.2/LOW — the first run
rewrote `report_count`, the growth baseline — and appends a second
timeline entry. -/
theorem issueRecalc_counterexample :
    ((IssueConfidence.recalcIssueConfidence 600 IssueAggregation.c4State
        "issue-X").issues.map (fun i => (i.confidence_score, i.confidence))) =
      [(8, "MEDIUM")] ∧
    (IssueConfidence.recalcIssueConfidence 600 IssueAggregation.c4State
        "issue-X").reports = IssueAggregation.c4State.reports ∧
    ((IssueConfidence.recalcIssueConfidence 600
        (IssueConfidence.recalcIssueConfidence 600 IssueAggregation.c4State
          "issue-X") "issue-X").issues.map
        (fun i => (i.confidence_score, i.confidence))) = [(4, "LOW")] ∧
    ((IssueConfidence.recalcIssueConfidence 600
        (IssueConfidence.recalcIssueConfidence 600 IssueAggregation.c4State
          "issue-X") "issue-X").issues.map
        (fun i => i.confidence_timeline.length)) = [2] := by
  decide

/-- Witness for the amended C4 theorem at the resynced store: the count
hypothesis holds (8 fetched reports against a stored count of 8), so the
double recomputation collapses to one, and the unchanged-score run leaves
the empty timeline untouched. -/
theorem issueRecalc_amended_witness :
    (IssueAggregation.c4SyncIssue.report_count =
      (IssueAggregation.fetchReports IssueAggregation.c4SyncState.reports
        IssueAggregation.c4SyncIssue.report_ids).length) ∧
    (IssueConfidence.recalcIssueConfidence 600
        (IssueConfidence.recalcIssueConfidence 600 IssueAggregation.c4SyncState
          IssueAggregation.c4SyncIssue.id) IssueAggregation.c4SyncIssue.id =
      IssueConfidence.recalcIssueConfidence 600 IssueAggregation.c4SyncState
        IssueAggregation.c4SyncIssue.id ∧
    ∃ J : Issue,
      (IssueConfidence.recalcIssueConfidence 600 IssueAggregation.c4SyncState
        IssueAggregation.c4SyncIssue.id).issues = [J] ∧
      (J.confidence_timeline = IssueAggregation.c4SyncIssue.confidence_timeline ↔
        ((IssueConfidence.calcConfidenceScore 600 IssueAggregation.c4SyncIssue
            (IssueAggregation.fetchReports IssueAggregation.c4SyncState.reports
              IssueAggregation.c4SyncIssue.report_ids)).1 =
          IssueAggregation.c4SyncIssue.confidence_score ∧
        IssueConfidence.scoreToConfidenceLabel
          (IssueConfidence.calcConfidenceScore 600 IssueAggregation.c4SyncIssue
            (IssueAggregation.fetchReports IssueAggregation.c4SyncState.reports
              IssueAggregation.c4SyncIssue.report_ids)).1 =
          IssueAggregation.c4SyncIssue.confidence)) ∧
      (J.confidence_timeline = IssueAggregation.c4SyncIssue.confidence_timeline ∨
        ∃ e : TEntry, J.confidence_timeline =
          IssueAggregation.c4SyncIssue.confidence_timeline ++ [e])) :=
  ⟨by decide,
    issueRecalc_amended 600 IssueAggregation.c4SyncState IssueAggregation.c4SyncIssue
      (by decide) (by decide) (by decide)⟩

/-- C9 (amended): the ingestion gate fails closed, not open.  Neither
`check_rate_limit` nor `check_duplicate` guards its store read, so a read
failure propagates out of `create_report` for every submission — the
route maps it to HTTP 500 and no report write happens — instead of
allowing the submission to proceed. -/
theorem gateFailClosed (d : IssueAggregation.Dist) (now : ℤ)
    (ipHash locality : String) (lat lon : Option QV) (desc : String) :
    IngestionGate.createReportGate (.error ()) d now ipHash locality lat lon desc =
      .error () := by
  unfold IngestionGate.createReportGate IngestionGate.checkRateLimit
    IngestionGate.checkDuplicate
  split_ifs with h <;> rfl

/-- C9 counterexample to the claimed fail-open: on a failing store read, a
concrete submission is not allowed to proceed — the gate surfaces the
error. -/
theorem gateFailOpen_counterexample :
    IngestionGate.createReportGate (.error ()) IssueAggregation.dZero 1000
        "h1" "mg road" (some (QV.ofInt 20)) (some (QV.ofInt 30)) "water leak" ≠
      Except.ok IngestionGate.GateOutcome.proceed ∧
    IngestionGate.createReportGate (.error ()) IssueAggregation.dZero 1000
        "h1" "mg road" (some (QV.ofInt 20)) (some (QV.ofInt 30)) "water leak" =
      Except.error () ∧
    IngestionGate.checkRateLimit (.error ()) 1000 "h1" = Except.error () ∧
    IngestionGate.checkDuplicate (.error ()) IssueAggregation.dZero 1000
        "h1" "mg road" (some (QV.ofInt 20)) (some (QV.ofInt 30)) "water leak" =
      Except.error () := by
  refine ⟨?_, rfl, rfl, rfl⟩
  exact fun h => Except.noConfusion h

/-- C10 counterexample: over one report at (10, 10) and one report without
coordinates, the source's centroid is (5, 5) — the missing coordinates
enter the sum as 0 yet the report still counts in the denominator — while
the claimed mean over coordinate-bearing reports is (10, 10). -/
theorem issueCentroid_counterexample :
    IssueAggregation.claimedCentroid IssueAggregation.c10Pair =
      some (⟨10, 1⟩, ⟨10, 1⟩) ∧
    ((IssueAggregation.calcCentroid IssueAggregation.c10Pair).1.valEq
      (QV.ofInt 5)) = true ∧
    ((IssueAggregation.calcCentroid IssueAggregation.c10Pair).1.valEq
      (QV.ofInt 10)) = false ∧
    ((IssueAggregation.calcCentroid IssueAggregation.c10Pair).2.valEq
      (QV.ofInt 10)) = false := by
  decide

/-- C10 (amended): the source's centroid averages the coordinate sums
(missing values as 0) over *all* member reports, so it equals the claimed
mean over coordinate-bearing members exactly when every member carries
coordinates (first half); and a merge whose recomputed centroid is (0, 0)
is rejected wholesale: the state — in particular the stored centroid — is
returned unchanged with the existing issue's id (second half). -/
theorem issueCentroid_amended :
    (∀ L : List PReport, L ≠ [] →
      (∀ r ∈ L, r.latitude.isSome ∧ r.longitude.isSome) →
      IssueAggregation.claimedCentroid L =
        some (IssueAggregation.calcCentroid L)) ∧
    (∀ (d : IssueAggregation.Dist) (now : ℤ) (st : AggState)
      (cluster : List PReport) (c0 : PReport) (rest : List PReport)
      (eid : String) (existing : Issue),
      cluster = c0 :: rest →
      ¬ cluster.length < IssueAggregation.MIN_REPORTS_FOR_ISSUE →
      ¬ (c0.issue_type = "" ∨ normalizeCityName c0.city = "" ∨
          normalizeCityName c0.city = "UNKNOWN") →
      ((IssueAggregation.calcCentroid cluster).1.isZero &&
        (IssueAggregation.calcCentroid cluster).2.isZero) = false →
      IssueAggregation.findExistingIssue d st.issues c0.issue_type
        (normalizeCityName c0.city) (IssueAggregation.calcCentroid cluster).1
        (IssueAggregation.calcCentroid cluster).2 = some eid →
      IssueAggregation.lookupIssue st.issues eid = some existing →
      ((IssueAggregation.calcCentroid (cluster ++ IssueAggregation.fetchReports
          st.reports ((dedupKeepFirst existing.report_ids).filter (fun rid =>
            ¬ rid ∈ (cluster.map PReport.id).filter (fun i => i ≠ ""))))).1.isZero &&
        (IssueAggregation.calcCentroid (cluster ++ IssueAggregation.fetchReports
          st.reports ((dedupKeepFirst existing.report_ids).filter (fun rid =>
            ¬ rid ∈ (cluster.map PReport.id).filter (fun i => i ≠ ""))))).2.isZero) =
          true →
      IssueAggregation.createOrUpdateIssueFromCluster d now st cluster =
        (st, some eid)) := by
  constructor
  · intro L hne hall
    have hf : L.filter (fun r => r.latitude.isSome && r.longitude.isSome) = L :=
      List.filter_eq_self.mpr (fun r hr => by
        simp [(hall r hr).1, (hall r hr).2])
    have hlen0 : ¬ L.length = 0 := by
      simp [List.length_eq_zero, hne]
    simp only [IssueAggregation.claimedCentroid, IssueAggregation.calcCentroid]
    rw [hf]
    rw [if_neg hlen0, if_neg hlen0]
  · intro d now st cluster c0 rest eid existing hcons hlen hok hcent1 hfind hlook hbad
    subst hcons
    simp only [IssueAggregation.createOrUpdateIssueFromCluster]
    rw [if_neg hlen]
    rw [if_neg hok]
    rw [if_neg (by simp [hcent1])]
    simp only [hfind, hlook]
    rw [if_pos hbad]

/-- Witness for the amended C10 theorem: the five identical-coordinate
pool reports give the claimed mean, and the concrete merge of the P
cluster into the issue holding the N reports — whose recomputed centroid
is exactly (0, 0) — leaves the state untouched. -/
theorem issueCentroid_amended_witness :
    (IssueAggregation.claimedCentroid IssueAggregation.c1FivePool =
      some (IssueAggregation.calcCentroid IssueAggregation.c1FivePool)) ∧
    IssueAggregation.createOrUpdateIssueFromCluster IssueAggregation.dZero 500
        IssueAggregation.c10State IssueAggregation.c10Cluster =
      (IssueAggregation.c10State, some "issue-9") :=
  ⟨issueCentroid_amended.1 IssueAggregation.c1FivePool (by decide) (by decide),
   issueCentroid_amended.2 IssueAggregation.dZero 500 IssueAggregation.c10State
     IssueAggregation.c10Cluster (IssueAggregation.c10P "P1")
     [IssueAggregation.c10P "P2", IssueAggregation.c10P "P3",
      IssueAggregation.c10P "P4", IssueAggregation.c10P "P5"]
     "issue-9" IssueAggregation.c10Existing
     (by decide) (by decide) (by decide) (by decide) (by decide) (by decide)
     (by decide)⟩
